import Mathlib

/-!
# Cutelyst authentication plugin

A shallow embedding of `Cutelyst/Plugins/authentication.cpp`: the realm registry of the
`Authentication` plugin, the per-request current-user property, the session keys
`"Authentication::user"` and `"Authentication::userRealm"`, and the `Realm` operations that
bind a store and a credential.

Conventions of the embedding.

* A `QString` is either the null string `QString()` or a string of characters; `isNull` is true
  of the former only, while comparison (and so key lookup in a container) looks at the
  characters alone.
* A `QVariant` is invalid, or wraps a `QString`, or wraps a `User`.  `isNull` follows Qt 5: an
  invalid variant is null, a wrapped string is null exactly when the string is, a wrapped `User`
  never is.
* Pointers to realms are `Option Realm`; a realm carries its address `self`, which is what a
  `User` keeps as back-reference.
* The store and the credential are virtual interfaces.  They are records of functions of their
  arguments, and every call the code of this file makes through them is appended to the
  `calls` trace of the context.
* Member functions that change the request become functions returning the new state.
-/

namespace Cutelyst

/-! ## Qt value types -/

/-- A `QString`: the null string or a (possibly empty) string of characters -/
inductive QString where
  | null
  | str (s : String)
deriving DecidableEq, Repr

/-- Test `QString::isNull` -/
def QString.isNull : QString → Bool
  | .null => true
  | .str _ => false

/-- The characters of a string; `operator==`, `operator<` and `qHash` see nothing else, so the
null string and the empty string are the same key -/
def QString.chars : QString → String
  | .null => ""
  | .str s => s

/-- Test `QString::isEmpty`: no characters, which the null string has not either -/
def QString.isEmpty (s : QString) : Bool := s.chars == ""

/-- The type `CStringHash`, a table from strings to strings -/
abbrev CStringHash := List (QString × QString)

/-- An `Authentication::User`: the table it derives from, `m_id` and `m_realm` -/
structure User where
  m_id : QString := .null
  hash : CStringHash := []
  m_realm : Option Nat := none
deriving DecidableEq, Repr

/-- Constructor `User::User()` -/
def User.ctor : User := {}

/-- Constructor `User::User(const QString &id)` -/
def User.ctorId (id : QString) : User := { m_id := id }

/-- Accessor `User::id` -/
def User.id (u : User) : QString := u.m_id

/-- Setter `User::setId` -/
def User.setId (u : User) (id : QString) : User := { u with m_id := id }

/-- Test `User::isNull` -/
def User.isNull (u : User) : Bool := u.m_id.isNull

/-- Accessor `User::authRealm` -/
def User.authRealm (u : User) : Option Nat := u.m_realm

/-- Setter `User::setAuthRealm` -/
def User.setAuthRealm (u : User) (authRealm : Nat) : User := { u with m_realm := some authRealm }

/-- A `QVariant` as far as this plugin meets it -/
inductive QVariant where
  | invalid
  | string (s : QString)
  | user (u : User)
deriving DecidableEq, Repr

/-- Test `QVariant::isNull` -/
def QVariant.isNull : QVariant → Bool
  | .invalid => true
  | .string s => s.isNull
  | .user _ => false

/-- Conversion `QVariant::toString`; what is not a string converts to the null string -/
def QVariant.toString : QVariant → QString
  | .string s => s
  | _ => .null

/-! ## Streaming -/

/-- A value in a `QDataStream`.  The byte encoding is Qt's; a stream is taken as the sequence
of values written to it, which is what reading gives back. -/
inductive StreamItem where
  | string (s : QString)
  | stringHash (h : CStringHash)
deriving DecidableEq, Repr

/-- A `QDataStream`: the values still to be read, and whether its status is `Ok` -/
structure QDataStream where
  items : List StreamItem := []
  statusOk : Bool := true
deriving DecidableEq, Repr

/-- Operator `QDataStream << QString` -/
def QDataStream.writeString (out : QDataStream) (s : QString) : QDataStream :=
  { out with items := out.items ++ [.string s] }

/-- Operator `QDataStream << CStringHash` -/
def QDataStream.writeHash (out : QDataStream) (h : CStringHash) : QDataStream :=
  { out with items := out.items ++ [.stringHash h] }

/-- Operator `QDataStream >> QString`; where no string is next, the result is the null string
and the status is no longer `Ok` -/
def QDataStream.readString (inp : QDataStream) : QString × QDataStream :=
  match inp.items with
  | .string s :: rest => (s, { inp with items := rest })
  | _ => (.null, { inp with statusOk := false })

/-- Operator `QDataStream >> CStringHash`; where no table is next, the result is the empty
table and the status is no longer `Ok` -/
def QDataStream.readHash (inp : QDataStream) : CStringHash × QDataStream :=
  match inp.items with
  | .stringHash h :: rest => (h, { inp with items := rest })
  | _ => ([], { inp with statusOk := false })

/-- Operator `operator<<(QDataStream &out, const Authentication::User &user)` -/
def User.streamOut (out : QDataStream) (user : User) : QDataStream :=
  (out.writeString user.id).writeHash user.hash

/-- Operator `operator>>(QDataStream &in, Authentication::User &user)`: the stream after the
two reads, and `user` after `setId(id)` and `swap(hash)` -/
def User.streamIn (inp : QDataStream) (user : User) : QDataStream × User :=
  let r1 := inp.readString
  let r2 := r1.2.readHash
  (r2.2, { user.setId r1.1 with hash := r2.1 })

/-! ## Collaborators -/

/-- The store interface used by a realm -/
structure Store where
  findUser : CStringHash → User
  canAutoCreateUser : Bool
  autoCreateUser : CStringHash → User
  canAutoUpdateUser : Bool
  autoUpdateUser : CStringHash → User
  forSession : User → QVariant
  fromSession : QVariant → User

/-- The credential interface: `authenticate(ctx, realm, authinfo)`, the realm being handed over
as its address and its store -/
structure Credential where
  authenticate : Nat → Store → CStringHash → User

/-- An `Authentication::Realm`: its address, `m_store` and `m_credential` -/
structure Realm where
  self : Nat
  m_store : Store
  m_credential : Credential

/-- A call made through one of the virtual interfaces, tagged with the address of the realm
that made it -/
inductive Call where
  | credentialAuthenticate (realm : Nat) (authinfo : CStringHash)
  | findUser (realm : Nat) (userinfo : CStringHash)
  | canAutoCreateUser (realm : Nat)
  | autoCreateUser (realm : Nat) (userinfo : CStringHash)
  | canAutoUpdateUser (realm : Nat)
  | autoUpdateUser (realm : Nat) (userinfo : CStringHash)
  | forSession (realm : Nat) (user : User)
  | fromSession (realm : Nat) (frozenUser : QVariant)
deriving DecidableEq, Repr

/-- The session plugin: validity and the stored key/value pairs -/
structure Session where
  valid : Bool
  data : List (String × QVariant) := []
deriving DecidableEq, Repr

/-- Test `Session::isValid` -/
def Session.isValid (s : Session) : Bool := s.valid

/-- Lookup `Session::value`; a key that is not stored gives the invalid variant -/
def Session.value (s : Session) (key : String) : QVariant :=
  match s.data.find? (fun p => p.1 == key) with
  | some p => p.2
  | none => .invalid

/-- Removal `Session::deleteValue` -/
def Session.deleteValue (s : Session) (key : String) : Session :=
  { s with data := s.data.filter (fun p => p.1 != key) }

/-- Update `Session::setValue` -/
def Session.setValue (s : Session) (key : String) (value : QVariant) : Session :=
  { s with data := (key, value) :: s.data.filter (fun p => p.1 != key) }

/-- The request context: the session plugin (absent when not loaded), the plugin property
`"user"` of the authentication plugin, and the trace of interface calls -/
structure Context where
  session : Option Session := none
  user : Option User := none
  calls : List Call := []

/-- The session when `session && session->isValid()` holds -/
def Context.validSession (ctx : Context) : Option Session :=
  match ctx.session with
  | some session => if session.isValid then some session else none
  | none => none

/-- Append a call to the trace -/
def Context.record (ctx : Context) (c : Call) : Context :=
  { ctx with calls := ctx.calls ++ [c] }

/-- The effect of `Authentication::setUser` on the context -/
def Context.setUser (ctx : Context) (user : User) : Context :=
  if user.isNull then { ctx with user := none } else { ctx with user := some user }

/-! ## Realm -/

/-- Method `Authentication::Realm::findUser` -/
def Realm.findUser (r : Realm) (ctx : Context) (userinfo : CStringHash) : User × Context :=
  let ret := r.m_store.findUser userinfo
  let ctx1 := ctx.record (.findUser r.self userinfo)
  if ret.isNull then
    let ctx2 := ctx1.record (.canAutoCreateUser r.self)
    if r.m_store.canAutoCreateUser then
      (r.m_store.autoCreateUser userinfo, ctx2.record (.autoCreateUser r.self userinfo))
    else
      (ret, ctx2)
  else
    let ctx2 := ctx1.record (.canAutoUpdateUser r.self)
    if r.m_store.canAutoUpdateUser then
      (r.m_store.autoUpdateUser userinfo, ctx2.record (.autoUpdateUser r.self userinfo))
    else
      (ret, ctx2)

/-- Method `Authentication::Realm::authenticate` -/
def Realm.authenticate (r : Realm) (ctx : Context) (authinfo : CStringHash) : User × Context :=
  (r.m_credential.authenticate r.self r.m_store authinfo,
    ctx.record (.credentialAuthenticate r.self authinfo))

/-- Method `Authentication::Realm::removePersistedUser` -/
def Realm.removePersistedUser (_r : Realm) (ctx : Context) : Context :=
  match ctx.validSession with
  | some session =>
    { ctx with
      session := some ((session.deleteValue "Authentication::user").deleteValue
        "Authentication::userRealm") }
  | none => ctx

/-- Method `Authentication::Realm::persistUser` -/
def Realm.persistUser (r : Realm) (ctx : Context) (user : User) : User × Context :=
  match ctx.validSession with
  | some session =>
    (user,
      { ctx.record (.forSession r.self user) with
        session := some (session.setValue "Authentication::user" (r.m_store.forSession user)) })
  | none => (user, ctx)

/-- Method `Authentication::Realm::userIsRestorable` -/
def Realm.userIsRestorable (_r : Realm) (ctx : Context) : QVariant :=
  match ctx.validSession with
  | some session => session.value "Authentication::user"
  | none => .invalid

/-- Method `Authentication::Realm::restoreUser`.  The context receives `setUser(user)` before
the local `user` gets its realm, and it is the local `user` that is returned. -/
def Realm.restoreUser (r : Realm) (ctx : Context) (frozenUser : QVariant) : User × Context :=
  let frozen := if frozenUser.isNull then r.userIsRestorable ctx else frozenUser
  if frozen.isNull then
    ({}, ctx)
  else
    let user := r.m_store.fromSession frozen
    let ctx1 := ctx.record (.fromSession r.self frozen)
    if !user.isNull then
      (user.setAuthRealm r.self, ctx1.setUser user)
    else
      (user, ctx1)

/-! ## The plugin -/

/-- The container `realms` of the private class: realm pointers keyed by name -/
structure RealmMap where
  entries : List (QString × Option Realm) := []

/-- Lookup `value(key)`: the stored pointer, or the null pointer for an absent key -/
def RealmMap.value (m : RealmMap) (key : QString) : Option Realm :=
  match m.entries.find? (fun p => p.1.chars == key.chars) with
  | some p => p.2
  | none => none

/-- Update `insert(key, value)`: replaces what was stored under an equal key -/
def RealmMap.insert (m : RealmMap) (key : QString) (value : Option Realm) : RealmMap :=
  { entries := (key, value) :: m.entries.filter (fun p => p.1.chars != key.chars) }

/-- Test `contains(key)`: something, be it the null pointer, is stored under an equal key -/
def RealmMap.contains (m : RealmMap) (key : QString) : Bool :=
  m.entries.any (fun p => p.1.chars == key.chars)

/-- The plugin with its private data (`realms`, `realmsOrder`, `defaultRealm`) and the
context `ctx` of the request it serves -/
structure Authentication where
  realms : RealmMap := {}
  realmsOrder : List QString := []
  defaultRealm : QString := .null
  ctx : Context := {}

/-- Method `AuthenticationPrivate::realm` -/
def Authentication.realm (a : Authentication) (realmName : QString) : Option Realm :=
  let name := if realmName.isNull then a.defaultRealm else realmName
  a.realms.value name

/-- Method `Authentication::addRealm(name, realm, defaultRealm)` -/
def Authentication.addRealm (a : Authentication) (name : QString) (realm : Option Realm)
    (defaultRealm : Bool) : Authentication :=
  { a with
    defaultRealm := if defaultRealm then name else a.defaultRealm
    realms := a.realms.insert name realm
    realmsOrder := a.realmsOrder ++ [name] }

/-- Method `Authentication::addRealm(realm)` -/
def Authentication.addRealmDefault (a : Authentication) (realm : Option Realm) : Authentication :=
  a.addRealm (.str "default") realm true

/-- Method `Authentication::setUser` -/
def Authentication.setUser (a : Authentication) (user : User) : Authentication :=
  { a with ctx := a.ctx.setUser user }

/-- The scan of `realmsOrder` in `findRealmForPersistedUser` -/
def Authentication.scanRealms (a : Authentication) : List QString → Option Realm
  | [] => none
  | realmName :: rest =>
    match a.realms.value realmName with
    | some realm =>
      if !(realm.userIsRestorable a.ctx).isNull then some realm else a.scanRealms rest
    | none => a.scanRealms rest

/-- Method `Authentication::findRealmForPersistedUser` -/
def Authentication.findRealmForPersistedUser (a : Authentication) : Option Realm :=
  match a.ctx.validSession with
  | some session =>
    if !(session.value "Authentication::userRealm").isNull then
      let realmName := (session.value "Authentication::userRealm").toString
      match a.realms.value realmName with
      | some realm => if !(realm.userIsRestorable a.ctx).isNull then some realm else none
      | none => none
    else
      a.scanRealms a.realmsOrder
  | none => a.scanRealms a.realmsOrder

/-- Method `Authentication::restoreUser` -/
def Authentication.restoreUser (a : Authentication) (frozenUser : QVariant)
    (realmName : QString) : User × Authentication :=
  let realmPtr :=
    match a.realm realmName with
    | some realm => some realm
    | none => a.findRealmForPersistedUser
  match realmPtr with
  | none => ({}, a)
  | some realm =>
    let res := realm.restoreUser a.ctx frozenUser
    (res.1, { a with ctx := res.2.setUser res.1 })

/-- Method `Authentication::user` -/
def Authentication.user (a : Authentication) : User × Authentication :=
  match a.ctx.user with
  | none => a.restoreUser .invalid .null
  | some u => (u, a)

/-- Method `Authentication::userExists` -/
def Authentication.userExists (a : Authentication) : Bool × Authentication :=
  let res := a.user
  (!res.1.isNull, res.2)

/-- Method `Authentication::userInRealm` -/
def Authentication.userInRealm (a : Authentication) (realm : QString) : Bool × Authentication :=
  match a.ctx.user with
  | none =>
    let res := a.restoreUser .invalid realm
    (!res.1.isNull, res.2)
  | some _ => (false, a)

/-- Method `Authentication::logout` -/
def Authentication.logout (a : Authentication) : Authentication :=
  let a1 := a.setUser {}
  match a1.findRealmForPersistedUser with
  | some realm => { a1 with ctx := realm.removePersistedUser a1.ctx }
  | none => a1

/-- Method `Authentication::persistUser` -/
def Authentication.persistUser (a : Authentication) (user : User) (realmName : QString) :
    Authentication :=
  let ex := a.userExists
  if ex.1 then
    let a1 := ex.2
    let a2 : Authentication :=
      match a1.ctx.validSession with
      | some session =>
        { a1 with
          ctx := { a1.ctx with
            session := some (session.setValue "Authentication::userRealm" (.string realmName)) } }
      | none => a1
    match a2.realm realmName with
    | some realmPtr => { a2 with ctx := (realmPtr.persistUser a2.ctx user).2 }
    | none => a2
  else
    ex.2

/-- Method `Authentication::setAuthenticated`; the realm looked up in between only decides
whether a warning is logged -/
def Authentication.setAuthenticated (a : Authentication) (user : User) (realmName : QString) :
    Authentication :=
  (a.setUser user).persistUser user realmName

/-- Method `Authentication::authenticate(userinfo, realm)` -/
def Authentication.authenticate (a : Authentication) (userinfo : CStringHash)
    (realm : QString) : User × Authentication :=
  match a.realm realm with
  | some realmPtr =>
    let res := realmPtr.authenticate a.ctx userinfo
    let a1 : Authentication := { a with ctx := res.2 }
    if !res.1.isNull then (res.1, a1.setAuthenticated res.1 realm) else (res.1, a1)
  | none => ({}, a)

/-- Method `Authentication::authenticate(username, password, realm)` -/
def Authentication.authenticatePassword (a : Authentication) (username password : QString)
    (realm : QString) : User × Authentication :=
  a.authenticate [(.str "username", username), (.str "password", password)] realm

/-- Method `Authentication::findUser` -/
def Authentication.findUser (a : Authentication) (userinfo : CStringHash)
    (realm : QString) : User × Authentication :=
  match a.realm realm with
  | some realmPtr =>
    let res := realmPtr.findUser a.ctx userinfo
    (res.1, { a with ctx := res.2 })
  | none => ({}, a)

/-! ## Set-up, observations and sample data -/

/-- The plugin as it stands after the `addRealm` calls `regs`, made in this order on a plugin
with no realm, and serving the request `ctx` -/
def Authentication.configured (ctx : Context) (regs : List (QString × Option Realm × Bool)) :
    Authentication :=
  regs.foldl (fun a reg => a.addRealm reg.1 reg.2.1 reg.2.2) { ctx := ctx }

/-- A realm `realm` is the first one the order list leads to whose `userIsRestorable` value is
not null: the names before it lead to no realm or to a realm with nothing to restore -/
def Authentication.FirstRestorable (a : Authentication) (realm : Realm) : Prop :=
  ∃ before name after,
    a.realmsOrder = before ++ name :: after ∧
    a.realms.value name = some realm ∧
    (realm.userIsRestorable a.ctx).isNull = false ∧
    ∀ earlier ∈ before, ∀ r, a.realms.value earlier = some r →
      (r.userIsRestorable a.ctx).isNull = true

/-- Every name under which a realm is registered has an equal name in the order list -/
def Authentication.OrderCovers (a : Authentication) : Prop :=
  ∀ name r, a.realms.value name = some r → ∃ m ∈ a.realmsOrder, m.chars = name.chars

/-- A call of `autoCreateUser` -/
def Call.isAutoCreate : Call → Bool
  | .autoCreateUser _ _ => true
  | _ => false

/-- A call of `autoUpdateUser` -/
def Call.isAutoUpdate : Call → Bool
  | .autoUpdateUser _ _ => true
  | _ => false

/-- A user record with two attributes -/
def bob : User :=
  { m_id := .str "u1", hash := [(.str "username", .str "bob"), (.str "password", .str "secret")] }

/-- The credential info that matches `bob` -/
def bobInfo : CStringHash := [(.str "username", .str "bob"), (.str "password", .str "secret")]

/-- A store over a fixed list of users.  `findUser` takes the first user that has every entry
of the info other than `"password"`.  The frozen form is the user with one more attribute that
names the store, and `fromSession` takes only what carries that attribute. -/
def taggedStore (tag : String) (users : List User) : Store where
  findUser := fun userinfo =>
    match users.find?
      (fun u => userinfo.all (fun kv => kv.1 == .str "password" || u.hash.contains kv)) with
    | some u => u
    | none => {}
  canAutoCreateUser := false
  autoCreateUser := fun _ => {}
  canAutoUpdateUser := false
  autoUpdateUser := fun _ => {}
  forSession := fun u => .user { u with hash := (.str "store", .str tag) :: u.hash }
  fromSession := fun v =>
    match v with
    | .user ⟨id, kv :: rest, realm⟩ =>
      if kv = (.str "store", .str tag) then ⟨id, rest, realm⟩ else {}
    | _ => {}

/-- A store like `taggedStore "Q" [bob]` whose frozen form of `bob` is the invalid variant,
which it thaws back to `bob` -/
def quietStore : Store :=
  { taggedStore "Q" [bob] with
    forSession := fun u => if u = bob then .invalid else (taggedStore "Q" [bob]).forSession u
    fromSession := fun v =>
      match v with
      | .invalid => bob
      | _ => (taggedStore "Q" [bob]).fromSession v }

/-- A store that creates a user for an unknown name and refreshes a known one -/
def eagerStore : Store :=
  { taggedStore "E" [bob] with
    canAutoCreateUser := true
    autoCreateUser := fun userinfo => { m_id := .str "new", hash := userinfo }
    canAutoUpdateUser := true
    autoUpdateUser := fun userinfo => { bob with hash := userinfo } }

/-- A credential that asks the store for the user and compares the `"password"` entries -/
def passwordCredential : Credential where
  authenticate := fun _ store authinfo =>
    let u := store.findUser authinfo
    if u.isNull then u
    else if authinfo.lookup (.str "password") == u.hash.lookup (.str "password") then u
    else {}

/-- A realm at address 1 over the store `"A"` that knows `bob` -/
def realmA : Realm :=
  { self := 1, m_store := taggedStore "A" [bob], m_credential := passwordCredential }

/-- A realm at address 2 over the store `"B"` that knows nobody -/
def realmB : Realm :=
  { self := 2, m_store := taggedStore "B" [], m_credential := passwordCredential }

/-- A realm at address 4 over `eagerStore` -/
def realmE : Realm :=
  { self := 4, m_store := eagerStore, m_credential := passwordCredential }

/-- A request with a valid session that stores nothing -/
def emptyRequest : Context := { session := some { valid := true } }

/-- One realm, registered by the one-argument `addRealm` -/
def oneRealm : Authentication :=
  ({ ctx := emptyRequest } : Authentication).addRealmDefault (some realmA)

/-- Realm `"a"` registered first and not as default, realm `"b"` registered second as default -/
def twoRealms : Authentication :=
  Authentication.configured emptyRequest
    [(.str "a", some realmA, false), (.str "b", some realmB, true)]

/-- The session a successful `authenticate` of `bob` against the realm `"a"` leaves -/
def sessionOfA : Session :=
  { valid := true
    data := [("Authentication::user", realmA.m_store.forSession bob),
      ("Authentication::userRealm", .string (.str "a"))] }

/-- A session with a frozen user and a hint that names the realm `"b"` -/
def sessionOfB : Session :=
  { valid := true
    data := [("Authentication::user", realmB.m_store.forSession bob),
      ("Authentication::userRealm", .string (.str "b"))] }

/-- A session with a frozen user and a hint that names a realm nobody registered -/
def sessionOfGhost : Session :=
  { valid := true
    data := [("Authentication::user", realmA.m_store.forSession bob),
      ("Authentication::userRealm", .string (.str "ghost"))] }

/-- A session with a frozen user and no hint -/
def sessionNoHint : Session :=
  { valid := true, data := [("Authentication::user", realmA.m_store.forSession bob)] }

/-- The plugin `twoRealms` serving a new request whose session is `session` -/
def twoRealmsWith (session : Session) : Authentication :=
  { twoRealms with ctx := { session := some session } }

/-- The plugin `oneRealm` in a request where `bob` is the current user -/
def oneRealmWithBob : Authentication :=
  { oneRealm with ctx := { session := some { valid := true }, user := some bob } }

/-- The plugin `oneRealm` serving a new request whose session is `session` -/
def oneRealmWith (session : Session) : Authentication :=
  { oneRealm with ctx := { session := some session } }

/-! ## Histories -/

/-- The registry of both plugins is the same -/
def Authentication.SameRegistry (a b : Authentication) : Prop :=
  a.realms = b.realms ∧ a.realmsOrder = b.realmsOrder ∧ a.defaultRealm = b.defaultRealm

/-- The first realm the order list leads to, if it leads to any -/
def Authentication.firstRealm (a : Authentication) : Option Realm :=
  a.realmsOrder.findSome? (fun name => a.realms.value name)

/-- A call of one of the public member functions -/
inductive Op where
  | addRealm (name : QString) (realm : Option Realm) (defaultRealm : Bool)
  | addRealmDefault (realm : Option Realm)
  | authenticate (userinfo : CStringHash) (realm : QString)
  | findUser (userinfo : CStringHash) (realm : QString)
  | user
  | setUser (user : User)
  | userInRealm (realm : QString)
  | logout

/-- The call registers a realm -/
def Op.registers : Op → Bool
  | .addRealm _ _ _ => true
  | .addRealmDefault _ => true
  | _ => false

/-- The call registers a realm as default -/
def Op.registersDefault : Op → Bool
  | .addRealm _ _ isDefault => isDefault
  | .addRealmDefault _ => true
  | _ => false

/-- The call hands over no null pointer as realm -/
def Op.givesRealm : Op → Bool
  | .addRealm _ realm _ => realm.isSome
  | .addRealmDefault realm => realm.isSome
  | _ => true

/-- The plugin after one call, whatever the call returns -/
def Authentication.step (a : Authentication) : Op → Authentication
  | .addRealm name realm isDefault => a.addRealm name realm isDefault
  | .addRealmDefault realm => a.addRealmDefault realm
  | .authenticate userinfo realm => (a.authenticate userinfo realm).2
  | .findUser userinfo realm => (a.findUser userinfo realm).2
  | .user => a.user.2
  | .setUser user => a.setUser user
  | .userInRealm realm => (a.userInRealm realm).2
  | .logout => a.logout

/-- The plugin after a sequence of calls -/
def Authentication.run (a : Authentication) (ops : List Op) : Authentication :=
  ops.foldl Authentication.step a

/-! # Lemmas -/

/-! ## Sessions and contexts -/

theorem Session.find_filter_ne (key key2 : String) (h : key2 ≠ key)
    (l : List (String × QVariant)) :
    (l.filter (fun p => p.1 != key)).find? (fun p => p.1 == key2)
      = l.find? (fun p => p.1 == key2) := by
  induction l with
  | nil => rfl
  | cons p l ih =>
    by_cases hp : p.1 = key
    · have h2 : ¬ key = key2 := fun e => h e.symm
      simp [List.filter_cons, List.find?_cons, hp, h2, ih]
    · simp [List.filter_cons, List.find?_cons, hp, ih]

theorem Session.find_filter_same (key : String) (l : List (String × QVariant)) :
    (l.filter (fun p => p.1 != key)).find? (fun p => p.1 == key) = none := by
  simp [List.find?_eq_none]

theorem Session.value_setValue_same (s : Session) (key : String) (v : QVariant) :
    (s.setValue key v).value key = v := by
  simp [Session.setValue, Session.value]

theorem Session.value_setValue_other (s : Session) (key key2 : String) (v : QVariant)
    (h : key2 ≠ key) : (s.setValue key v).value key2 = s.value key2 := by
  simp [Session.setValue, Session.value, List.find?_cons, Ne.symm h, Session.find_filter_ne _ _ h]

theorem Session.value_deleteValue_same (s : Session) (key : String) :
    (s.deleteValue key).value key = .invalid := by
  simp only [Session.deleteValue, Session.value, Session.find_filter_same]

theorem Session.value_deleteValue_other (s : Session) (key key2 : String) (h : key2 ≠ key) :
    (s.deleteValue key).value key2 = s.value key2 := by
  simp only [Session.deleteValue, Session.value, Session.find_filter_ne _ _ h]

theorem Context.validSession_eq_some {ctx : Context} {session : Session} :
    ctx.validSession = some session ↔ ctx.session = some session ∧ session.valid = true := by
  obtain ⟨sess, usr, calls⟩ := ctx
  cases sess with
  | none => simp [Context.validSession]
  | some s0 =>
    by_cases hv : s0.valid = true
    · simp only [Context.validSession, Session.isValid, hv, if_true, Option.some.injEq]
      constructor
      · intro h; subst h; exact ⟨rfl, hv⟩
      · intro h; exact h.1
    · simp only [Context.validSession, Session.isValid, hv]
      constructor
      · intro h; simp at h
      · rintro ⟨h1, h2⟩
        simp only [Option.some.injEq] at h1
        subst h1; exact absurd h2 hv

theorem Context.validSession_of_session {ctx ctx2 : Context} (h : ctx2.session = ctx.session) :
    ctx2.validSession = ctx.validSession := by
  simp [Context.validSession, h]

/-! ## Realm operations -/

theorem Realm.userIsRestorable_of_valid (r : Realm) {ctx : Context} {session : Session}
    (hs : ctx.validSession = some session) :
    r.userIsRestorable ctx = session.value "Authentication::user" := by
  simp [Realm.userIsRestorable, hs]

theorem Realm.userIsRestorable_indep (r r2 : Realm) (ctx : Context) :
    r.userIsRestorable ctx = r2.userIsRestorable ctx := rfl

theorem QVariant.isNull_invalid : QVariant.invalid.isNull = true := rfl

theorem Realm.restoreUser_nothing (r : Realm) (ctx : Context)
    (h : (r.userIsRestorable ctx).isNull = true) : r.restoreUser ctx .invalid = ({}, ctx) := by
  simp [Realm.restoreUser, QVariant.isNull_invalid, h]

theorem Realm.restoreUser_session (r : Realm) (ctx : Context)
    (h : (r.userIsRestorable ctx).isNull = false)
    (hu : (r.m_store.fromSession (r.userIsRestorable ctx)).isNull = false) :
    r.restoreUser ctx .invalid
      = ((r.m_store.fromSession (r.userIsRestorable ctx)).setAuthRealm r.self,
          { session := ctx.session
            user := some (r.m_store.fromSession (r.userIsRestorable ctx))
            calls := ctx.calls ++ [.fromSession r.self (r.userIsRestorable ctx)] }) := by
  simp [Realm.restoreUser, QVariant.isNull_invalid, h, hu, Context.setUser, Context.record]

/-! ## The plugin -/

theorem Authentication.realm_withCtx (a : Authentication) (ctx : Context) (name : QString) :
    ({ a with ctx := ctx } : Authentication).realm name = a.realm name := rfl

theorem Authentication.authenticate_success (a : Authentication) (userinfo : CStringHash)
    (realm : QString) (r : Realm) (session : Session)
    (hr : a.realm realm = some r) (hs : a.ctx.validSession = some session)
    (hn : (r.m_credential.authenticate r.self r.m_store userinfo).isNull = false) :
    a.authenticate userinfo realm
      = (r.m_credential.authenticate r.self r.m_store userinfo,
          { a with
            ctx :=
              { session := some ((session.setValue "Authentication::userRealm"
                  (.string realm)).setValue "Authentication::user"
                  (r.m_store.forSession (r.m_credential.authenticate r.self r.m_store userinfo)))
                user := some (r.m_credential.authenticate r.self r.m_store userinfo)
                calls := a.ctx.calls ++ [.credentialAuthenticate r.self userinfo,
                  .forSession r.self (r.m_credential.authenticate r.self r.m_store userinfo)] } }) := by
  obtain ⟨realms, order, dflt, ⟨sess, usr, calls⟩⟩ := a
  obtain ⟨hsess, hv⟩ := Context.validSession_eq_some.mp hs
  simp only at hsess
  subst hsess
  simp only [Authentication.realm] at hr
  simp [Authentication.authenticate, Authentication.realm, hr, Realm.authenticate, hn,
    Context.record, Authentication.setAuthenticated, Authentication.persistUser,
    Authentication.userExists, Authentication.user, Authentication.setUser, Context.setUser,
    Context.validSession, Session.isValid, hv, Realm.persistUser, Session.setValue]

theorem Authentication.authenticate_failure (a : Authentication) (userinfo : CStringHash)
    (realm : QString) (r : Realm) (hr : a.realm realm = some r)
    (hn : (r.m_credential.authenticate r.self r.m_store userinfo).isNull = true) :
    a.authenticate userinfo realm
      = (r.m_credential.authenticate r.self r.m_store userinfo,
          { a with ctx := a.ctx.record (.credentialAuthenticate r.self userinfo) }) := by
  simp [Authentication.authenticate, hr, Realm.authenticate, hn]

theorem Authentication.findRealm_of_hint (a : Authentication) (session : Session) (r : Realm)
    (hs : a.ctx.validSession = some session)
    (hh : (session.value "Authentication::userRealm").isNull = false)
    (hr : a.realms.value (session.value "Authentication::userRealm").toString = some r)
    (hf : (session.value "Authentication::user").isNull = false) :
    a.findRealmForPersistedUser = some r := by
  simp [Authentication.findRealmForPersistedUser, hs, hh, hr, Realm.userIsRestorable, hf]

theorem Authentication.restoreUser_of_realm (a : Authentication) (frozenUser : QVariant)
    (realmName : QString) (r : Realm) (h : a.realm realmName = some r) :
    a.restoreUser frozenUser realmName
      = ((r.restoreUser a.ctx frozenUser).1,
          { a with
            ctx := ((r.restoreUser a.ctx frozenUser).2.setUser (r.restoreUser a.ctx frozenUser).1) }) := by
  simp [Authentication.restoreUser, h]

theorem Authentication.restoreUser_of_found (a : Authentication) (frozenUser : QVariant)
    (realmName : QString) (r : Realm) (h : a.realm realmName = none)
    (hf : a.findRealmForPersistedUser = some r) :
    a.restoreUser frozenUser realmName
      = ((r.restoreUser a.ctx frozenUser).1,
          { a with
            ctx := ((r.restoreUser a.ctx frozenUser).2.setUser (r.restoreUser a.ctx frozenUser).1) }) := by
  simp [Authentication.restoreUser, h, hf]

theorem Authentication.restoreUser_of_none (a : Authentication) (frozenUser : QVariant)
    (realmName : QString) (h : a.realm realmName = none)
    (hf : a.findRealmForPersistedUser = none) :
    a.restoreUser frozenUser realmName = ({}, a) := by
  simp [Authentication.restoreUser, h, hf]

theorem Authentication.realm_of_str (a : Authentication) (s : String) :
    a.realm (.str s) = a.realms.value (.str s) := rfl

theorem Authentication.realm_null (a : Authentication) :
    a.realm .null = a.realms.value a.defaultRealm := rfl

/-- Restoring with no frozen value through a realm whose store thaws the session's frozen
user to a user that is not null -/
theorem Authentication.restore_through (r : Realm) (ctx : Context) (session : Session) (u : User)
    (hs : ctx.validSession = some session)
    (hf : (session.value "Authentication::user").isNull = false)
    (hu : r.m_store.fromSession (session.value "Authentication::user") = u)
    (hn : u.isNull = false) :
    r.restoreUser ctx .invalid
      = (u.setAuthRealm r.self,
          { session := ctx.session
            user := some u
            calls := ctx.calls ++ [.fromSession r.self (session.value "Authentication::user")] }) := by
  have h1 := r.userIsRestorable_of_valid hs
  have h2 := r.restoreUser_session ctx (by rw [h1]; exact hf) (by rw [h1, hu]; exact hn)
  rw [h2, h1, hu]

/-! ## The registry -/

theorem RealmMap.value_insert (m : RealmMap) (key key2 : QString) (v : Option Realm) :
    (m.insert key v).value key2 = if key.chars = key2.chars then v else m.value key2 := by
  by_cases h : key.chars = key2.chars
  · simp [RealmMap.insert, RealmMap.value, List.find?_cons, h]
  · have hf : ∀ l : List (QString × Option Realm),
        (l.filter (fun p => p.1.chars != key.chars)).find? (fun p => p.1.chars == key2.chars)
          = l.find? (fun p => p.1.chars == key2.chars) := by
      intro l
      induction l with
      | nil => rfl
      | cons p l ih =>
        by_cases hp : p.1.chars = key.chars
        · simp [List.filter_cons, List.find?_cons, hp, h, ih]
        · simp [List.filter_cons, List.find?_cons, hp, ih]
    simp [RealmMap.insert, RealmMap.value, List.find?_cons, h, hf]

theorem Authentication.orderCovers_addRealm (a : Authentication) (name : QString)
    (realm : Option Realm) (isDefault : Bool) (h : a.OrderCovers) :
    (a.addRealm name realm isDefault).OrderCovers := by
  intro n r hv
  simp only [Authentication.addRealm, RealmMap.value_insert] at hv
  by_cases hk : name.chars = n.chars
  · exact ⟨name, by simp [Authentication.addRealm], hk⟩
  · rw [if_neg hk] at hv
    obtain ⟨m, hm, hmn⟩ := h n r hv
    exact ⟨m, by simp [Authentication.addRealm, hm], hmn⟩

theorem Authentication.orderCovers_foldl (regs : List (QString × Option Realm × Bool)) :
    ∀ a : Authentication, a.OrderCovers →
      (regs.foldl (fun a reg => a.addRealm reg.1 reg.2.1 reg.2.2) a).OrderCovers := by
  induction regs with
  | nil => intro a h; exact h
  | cons reg regs ih =>
    intro a h
    exact ih _ (Authentication.orderCovers_addRealm a _ _ _ h)

theorem Authentication.orderCovers_configured (ctx : Context)
    (regs : List (QString × Option Realm × Bool)) :
    (Authentication.configured ctx regs).OrderCovers := by
  apply Authentication.orderCovers_foldl
  intro n r hv
  simp [RealmMap.value] at hv

theorem Authentication.addRealm_ctx (a : Authentication) (name : QString)
    (realm : Option Realm) (isDefault : Bool) : (a.addRealm name realm isDefault).ctx = a.ctx :=
  rfl

theorem Authentication.configured_ctx (ctx : Context)
    (regs : List (QString × Option Realm × Bool)) :
    (Authentication.configured ctx regs).ctx = ctx := by
  have h : ∀ (l : List (QString × Option Realm × Bool)) (a : Authentication),
      (l.foldl (fun a reg => a.addRealm reg.1 reg.2.1 reg.2.2) a).ctx = a.ctx := by
    intro l
    induction l with
    | nil => intro a; rfl
    | cons reg l ih => intro a; exact (ih _).trans rfl
  exact h regs _

/-! ## The scan of the order list -/

theorem RealmMap.value_congr (m : RealmMap) {key key2 : QString} (h : key.chars = key2.chars) :
    m.value key = m.value key2 := by
  simp [RealmMap.value, h]

theorem Authentication.scanRealms_none (a : Authentication) (l : List QString) :
    a.scanRealms l = none ↔
      ∀ name ∈ l, ∀ r, a.realms.value name = some r →
        (r.userIsRestorable a.ctx).isNull = true := by
  induction l with
  | nil => simp [Authentication.scanRealms]
  | cons n l ih =>
    cases hv : a.realms.value n with
    | none => simp [Authentication.scanRealms, hv, ih]
    | some realm =>
      by_cases hn : (realm.userIsRestorable a.ctx).isNull = true
      · simp [Authentication.scanRealms, hv, hn, ih]
      · simp [Authentication.scanRealms, hv, hn]

theorem Authentication.scanRealms_some (a : Authentication) (l : List QString) (realm : Realm)
    (h : a.scanRealms l = some realm) :
    ∃ before name after,
      l = before ++ name :: after ∧
      a.realms.value name = some realm ∧
      (realm.userIsRestorable a.ctx).isNull = false ∧
      ∀ earlier ∈ before, ∀ r, a.realms.value earlier = some r →
        (r.userIsRestorable a.ctx).isNull = true := by
  induction l with
  | nil => simp [Authentication.scanRealms] at h
  | cons n l ih =>
    have step : a.scanRealms l = some realm →
        (∀ r, a.realms.value n = some r → (r.userIsRestorable a.ctx).isNull = true) →
        ∃ before name after,
          n :: l = before ++ name :: after ∧
          a.realms.value name = some realm ∧
          (realm.userIsRestorable a.ctx).isNull = false ∧
          ∀ earlier ∈ before, ∀ r, a.realms.value earlier = some r →
            (r.userIsRestorable a.ctx).isNull = true := by
      intro hl hn
      obtain ⟨before, name, after, h1, h2, h3, h4⟩ := ih hl
      refine ⟨n :: before, name, after, by simp [h1], h2, h3, ?_⟩
      intro earlier he r hr
      rcases List.mem_cons.mp he with rfl | he
      · exact hn r hr
      · exact h4 earlier he r hr
    cases hv : a.realms.value n with
    | none =>
      simp only [Authentication.scanRealms, hv] at h
      exact step h (by intro r hr; rw [hv] at hr; cases hr)
    | some r0 =>
      by_cases hn : (r0.userIsRestorable a.ctx).isNull = true
      · simp only [Authentication.scanRealms, hv, hn, Bool.not_true] at h
        exact step (by simpa using h) (by intro r hr; rw [hv] at hr; cases hr; exact hn)
      · simp only [Authentication.scanRealms, hv, hn] at h
        simp only [Bool.not_eq_true] at hn
        simp only [Bool.not_false, if_true, Option.some.injEq] at h
        subst h
        exact ⟨[], n, l, rfl, hv, hn, by simp⟩

theorem Authentication.logout_of_found (a : Authentication) (r : Realm) (session : Session)
    (hs : a.ctx.validSession = some session)
    (h : (a.setUser {}).findRealmForPersistedUser = some r) :
    a.logout
      = { a with
          ctx :=
            { session := some ((session.deleteValue "Authentication::user").deleteValue
                "Authentication::userRealm")
              user := none
              calls := a.ctx.calls } } := by
  have hs2 : (a.setUser {}).ctx.validSession = some session := by
    rw [← hs]; exact Context.validSession_of_session rfl
  simp only [Authentication.logout, h, Realm.removePersistedUser, hs2]
  rfl

theorem Authentication.findRealm_no_hint (a : Authentication)
    (h : ∀ session, a.ctx.validSession = some session →
      (session.value "Authentication::userRealm").isNull = true) :
    a.findRealmForPersistedUser = a.scanRealms a.realmsOrder := by
  unfold Authentication.findRealmForPersistedUser
  cases hv : a.ctx.validSession with
  | none => rfl
  | some session => simp [h session hv]

theorem Authentication.user_of_nothing (a : Authentication) (h : a.ctx.user = none)
    (hn : ∀ r : Realm, (r.userIsRestorable a.ctx).isNull = true) : a.user.1 = {} := by
  simp only [Authentication.user, h, Authentication.restoreUser]
  cases a.realm .null with
  | some r => simp [Realm.restoreUser_nothing r a.ctx (hn r)]
  | none =>
    cases a.findRealmForPersistedUser with
    | some r => simp [Realm.restoreUser_nothing r a.ctx (hn r)]
    | none => rfl

theorem Authentication.authenticate_unresolved (a : Authentication) (userinfo : CStringHash)
    (realm : QString) (h : a.realm realm = none) : a.authenticate userinfo realm = ({}, a) := by
  simp [Authentication.authenticate, h]

theorem Authentication.scanRealms_of_first (a : Authentication) (realm : Realm)
    (before : List QString) (name : QString) (after : List QString)
    (hv : a.realms.value name = some realm)
    (hn : (realm.userIsRestorable a.ctx).isNull = false)
    (hb : ∀ earlier ∈ before, ∀ r, a.realms.value earlier = some r →
      (r.userIsRestorable a.ctx).isNull = true) :
    a.scanRealms (before ++ name :: after) = some realm := by
  induction before with
  | nil => simp [Authentication.scanRealms, hv, hn]
  | cons b before ih =>
    have ih2 := ih (fun e he r hr => hb e (List.mem_cons_of_mem _ he) r hr)
    cases hbv : a.realms.value b with
    | none => simp [Authentication.scanRealms, hbv, ih2]
    | some r0 =>
      have := hb b (List.mem_cons_self _ _) r0 hbv
      simp [Authentication.scanRealms, hbv, this, ih2]

theorem Authentication.scanRealms_iff_first (a : Authentication) (realm : Realm) :
    a.scanRealms a.realmsOrder = some realm ↔ a.FirstRestorable realm := by
  constructor
  · intro h
    exact a.scanRealms_some a.realmsOrder realm h
  · rintro ⟨before, name, after, h1, h2, h3, h4⟩
    rw [h1]
    exact a.scanRealms_of_first realm before name after h2 h3 h4

theorem Authentication.findRealm_hint_nothing (a : Authentication) (session : Session)
    (hs : a.ctx.validSession = some session)
    (hh : (session.value "Authentication::userRealm").isNull = false)
    (hr : ∀ realm, a.realms.value (session.value "Authentication::userRealm").toString
      = some realm → (realm.userIsRestorable a.ctx).isNull = true) :
    a.findRealmForPersistedUser = none := by
  unfold Authentication.findRealmForPersistedUser
  simp only [hs, hh, Bool.not_false, if_true]
  cases hv : a.realms.value (session.value "Authentication::userRealm").toString with
  | none => rfl
  | some realm => simp [hr realm hv]

theorem Context.setUser_session (ctx : Context) (u : User) :
    (ctx.setUser u).session = ctx.session := by
  by_cases h : u.isNull = true <;> simp [Context.setUser, h]

theorem Context.setUser_user (ctx : Context) (u : User) :
    (ctx.setUser u).user = if u.isNull then none else some u := by
  by_cases h : u.isNull = true <;> simp [Context.setUser, h]

theorem Realm.restoreUser_keeps_session (r : Realm) (ctx : Context) (frozenUser : QVariant) :
    (r.restoreUser ctx frozenUser).2.session = ctx.session := by
  unfold Realm.restoreUser
  simp only
  generalize (if frozenUser.isNull then r.userIsRestorable ctx else frozenUser) = frozen
  by_cases h1 : frozen.isNull = true
  · simp [h1]
  · by_cases h2 : (r.m_store.fromSession frozen).isNull = true
    · simp [h1, h2, Context.record]
    · simp [h1, h2, Context.record, Context.setUser_session]

theorem Authentication.restoreUser_frame (a : Authentication) (frozenUser : QVariant)
    (realmName : QString) :
    (a.restoreUser frozenUser realmName).2.realms = a.realms ∧
    (a.restoreUser frozenUser realmName).2.realmsOrder = a.realmsOrder ∧
    (a.restoreUser frozenUser realmName).2.defaultRealm = a.defaultRealm ∧
    (a.restoreUser frozenUser realmName).2.ctx.session = a.ctx.session := by
  unfold Authentication.restoreUser
  simp only
  split
  · exact ⟨rfl, rfl, rfl, rfl⟩
  · refine ⟨rfl, rfl, rfl, ?_⟩
    simp [Context.setUser_session, Realm.restoreUser_keeps_session]

theorem Authentication.user_frame (a : Authentication) :
    a.user.2.realms = a.realms ∧ a.user.2.realmsOrder = a.realmsOrder ∧
    a.user.2.defaultRealm = a.defaultRealm ∧ a.user.2.ctx.session = a.ctx.session := by
  unfold Authentication.user
  split
  · exact a.restoreUser_frame .invalid .null
  · exact ⟨rfl, rfl, rfl, rfl⟩

theorem Authentication.user_property (a : Authentication) (h : a.user.1.isNull = true) :
    a.user.2.ctx.user = a.ctx.user := by
  unfold Authentication.user at h ⊢
  cases hc : a.ctx.user with
  | some u => simp [hc]
  | none =>
    simp only [hc] at h ⊢
    unfold Authentication.restoreUser at h ⊢
    simp only at h ⊢
    split
    · exact hc
    · rename_i realm hrealm
      simp only [hrealm] at h
      simp [Context.setUser_user, h]

theorem Authentication.findUser_unresolved (a : Authentication) (userinfo : CStringHash)
    (realm : QString) (h : a.realm realm = none) : a.findUser userinfo realm = ({}, a) := by
  simp [Authentication.findUser, h]

/-- What `Realm::restoreUser` does with a frozen value that is not null: the store thaws it;
a user that is not null is stored in the current-user property as the store gave it and is
returned with the realm set, a null user is returned with the property untouched -/
theorem Realm.restoreUser_frozen (r : Realm) (ctx : Context) (frozenUser : QVariant)
    (h : frozenUser.isNull = false) :
    ((r.m_store.fromSession frozenUser).isNull = false →
      r.restoreUser ctx frozenUser
        = ((r.m_store.fromSession frozenUser).setAuthRealm r.self,
            { session := ctx.session
              user := some (r.m_store.fromSession frozenUser)
              calls := ctx.calls ++ [.fromSession r.self frozenUser] })) ∧
    ((r.m_store.fromSession frozenUser).isNull = true →
      r.restoreUser ctx frozenUser
        = (r.m_store.fromSession frozenUser,
            { session := ctx.session
              user := ctx.user
              calls := ctx.calls ++ [.fromSession r.self frozenUser] })) := by
  constructor
  · intro hu
    simp [Realm.restoreUser, h, hu, Context.setUser, Context.record]
  · intro hu
    simp [Realm.restoreUser, h, hu, Context.record]

/-! ## The sample stores -/

theorem taggedStore_roundtrip (tag : String) (users : List User) (u : User) :
    (taggedStore tag users).fromSession ((taggedStore tag users).forSession u) = u := by
  simp [taggedStore]

theorem quietStore_roundtrip (u : User) : quietStore.fromSession (quietStore.forSession u) = u := by
  by_cases h : u = bob
  · subst h; rfl
  · simp [quietStore, h, taggedStore]

/-! # The claims -/

theorem Authentication.logout_of_none (a : Authentication)
    (h : (a.setUser {}).findRealmForPersistedUser = none) : a.logout = a.setUser {} := by
  simp [Authentication.logout, h]

/-- C3 (amended): when there is no valid session, or the valid session holds no realm-name
hint, `findRealmForPersistedUser` returns the first realm in registration order whose
`userIsRestorable` value is not null, and returns none exactly when no name of the order list
leads to such a realm (so, the order list covering the registry, when no registered realm
reports a restorable value).  When the valid session does hold a hint, there is no scan: if
the hinted realm is not registered or reports nothing restorable, the result is none. -/
theorem C3_scan_without_hint (a : Authentication) :
    ((∀ session, a.ctx.validSession = some session →
        (session.value "Authentication::userRealm").isNull = true) →
      (∀ realm, a.findRealmForPersistedUser = some realm ↔ a.FirstRestorable realm) ∧
      (a.findRealmForPersistedUser = none ↔
        ∀ name ∈ a.realmsOrder, ∀ r, a.realms.value name = some r →
          (r.userIsRestorable a.ctx).isNull = true) ∧
      (a.OrderCovers → a.findRealmForPersistedUser = none →
        ∀ name r, a.realms.value name = some r →
          (r.userIsRestorable a.ctx).isNull = true)) ∧
    (∀ session, a.ctx.validSession = some session →
      (session.value "Authentication::userRealm").isNull = false →
      (∀ realm, a.realms.value (session.value "Authentication::userRealm").toString
        = some realm → (realm.userIsRestorable a.ctx).isNull = true) →
      a.findRealmForPersistedUser = none) := by
  refine ⟨?_, ?_⟩
  · intro hno
    rw [Authentication.findRealm_no_hint a hno]
    refine ⟨fun realm => a.scanRealms_iff_first realm, a.scanRealms_none a.realmsOrder, ?_⟩
    intro hcov hnone name r hr
    obtain ⟨m, hm, hmn⟩ := hcov name r hr
    exact (a.scanRealms_none a.realmsOrder).mp hnone m hm r
      (by rw [RealmMap.value_congr _ hmn]; exact hr)
  · intro session hs hh hr
    exact a.findRealm_hint_nothing session hs hh hr

/-- C3, two instances: with a frozen user and no hint the first realm of the order list is found;
with a hint that names no registered realm nothing is found. -/
theorem C3_scan_without_hint_witness :
    ((twoRealmsWith sessionNoHint).findRealmForPersistedUser = some realmA ↔
      (twoRealmsWith sessionNoHint).FirstRestorable realmA) ∧
    (twoRealmsWith sessionOfGhost).findRealmForPersistedUser = none :=
  ⟨(((C3_scan_without_hint (twoRealmsWith sessionNoHint)).1
      (fun session hs => by
        have h : some sessionNoHint = some session := hs
        cases h
        decide)).1 realmA),
    (C3_scan_without_hint (twoRealmsWith sessionOfGhost)).2 sessionOfGhost rfl (by decide)
      (fun realm hr => by
        have h : (none : Option Realm) = some realm := hr
        cases h)⟩

/-- C3 fails as stated: the valid session holds a frozen user and a hint naming `"ghost"`, which
is not registered.  The realm `"a"` is first in the order list and reports a restorable value,
yet `findRealmForPersistedUser` returns none. -/
theorem C3_hint_stops_scan_counterexample :
    (twoRealmsWith sessionOfGhost).ctx.validSession = some sessionOfGhost ∧
    sessionOfGhost.value "Authentication::userRealm" = .string (.str "ghost") ∧
    (twoRealmsWith sessionOfGhost).realms.value (.str "ghost") = none ∧
    (twoRealmsWith sessionOfGhost).realmsOrder = [.str "a", .str "b"] ∧
    (twoRealmsWith sessionOfGhost).realms.value (.str "a") = some realmA ∧
    (realmA.userIsRestorable (twoRealmsWith sessionOfGhost).ctx).isNull = false ∧
    (twoRealmsWith sessionOfGhost).FirstRestorable realmA ∧
    (twoRealmsWith sessionOfGhost).findRealmForPersistedUser = none :=
  ⟨rfl, by decide, rfl, by decide, rfl, by decide,
    ⟨[], .str "a", [.str "b"], rfl, rfl, by decide, by simp⟩, rfl⟩

/-- C4: with a valid session that holds a realm-name hint naming a registered realm and holds
a frozen user, `findRealmForPersistedUser` returns the hinted realm, whatever the order list
says. -/
theorem C4_hint_is_preferred (a : Authentication) (session : Session) (realm : Realm)
    (hs : a.ctx.validSession = some session)
    (hh : (session.value "Authentication::userRealm").isNull = false)
    (hr : a.realms.value (session.value "Authentication::userRealm").toString = some realm)
    (hf : (session.value "Authentication::user").isNull = false) :
    a.findRealmForPersistedUser = some realm :=
  a.findRealm_of_hint session realm hs hh hr hf

/-- C4, an instance: `"a"` is registered before `"b"`, the hint names `"b"`, and the realm `"b"`
is returned. -/
theorem C4_hint_is_preferred_witness :
    (twoRealmsWith sessionOfB).realmsOrder = [.str "a", .str "b"] ∧
    (twoRealmsWith sessionOfB).findRealmForPersistedUser = some realmB :=
  ⟨by decide,
    C4_hint_is_preferred (twoRealmsWith sessionOfB) sessionOfB realmB rfl (by decide) rfl
      (by decide)⟩

/-- C5 (amended): with the current-user property empty, `user()` restores through the realm
registered under the default realm name when there is one, and only otherwise through the
realm that `findRealmForPersistedUser` selects; it returns that realm's `restoreUser` result
(the null user, with nothing changed, when neither gives a realm), and afterwards the property
holds exactly the returned user, being empty when that user is null. -/
theorem C5_user_restores (a : Authentication) (h : a.ctx.user = none) :
    (∀ r, a.realms.value a.defaultRealm = some r →
      a.user = ((r.restoreUser a.ctx .invalid).1,
        { a with
          ctx := ((r.restoreUser a.ctx .invalid).2.setUser (r.restoreUser a.ctx .invalid).1) })) ∧
    (a.realms.value a.defaultRealm = none →
      ∀ r, a.findRealmForPersistedUser = some r →
        a.user = ((r.restoreUser a.ctx .invalid).1,
          { a with
            ctx := ((r.restoreUser a.ctx .invalid).2.setUser
              (r.restoreUser a.ctx .invalid).1) })) ∧
    (a.realms.value a.defaultRealm = none → a.findRealmForPersistedUser = none →
      a.user = ({}, a)) ∧
    a.user.2.ctx.user = (if a.user.1.isNull then none else some a.user.1) := by
  have hu : a.user = a.restoreUser .invalid .null := by
    simp [Authentication.user, h]
  have hset : ∀ (c : Context) (u : User),
      (c.setUser u).user = if u.isNull then none else some u := by
    intro c u
    by_cases hn : u.isNull = true <;> simp [Context.setUser, hn]
  refine ⟨?_, ?_, ?_, ?_⟩
  · intro r hr
    rw [hu, Authentication.restoreUser_of_realm a .invalid .null r hr]
  · intro hd r hr
    rw [hu, Authentication.restoreUser_of_found a .invalid .null r hd hr]
  · intro hd hr
    rw [hu, Authentication.restoreUser_of_none a .invalid .null hd hr]
  · rw [hu]
    cases hd : a.realm .null with
    | some r =>
      rw [Authentication.restoreUser_of_realm a _ _ r hd]
      exact hset _ _
    | none =>
      cases hf : a.findRealmForPersistedUser with
      | some r =>
        rw [Authentication.restoreUser_of_found a _ _ r hd hf]
        exact hset _ _
      | none =>
        rw [Authentication.restoreUser_of_none a _ _ hd hf]
        simp [h, User.isNull, QString.isNull]

/-- C5, an instance: with `"b"` as default realm and a user frozen by its store, `user()` is what
the realm `"b"` restores, `bob` with realm 2. -/
theorem C5_user_restores_witness :
    (twoRealmsWith sessionOfB).user
      = ((realmB.restoreUser (twoRealmsWith sessionOfB).ctx .invalid).1,
          { twoRealmsWith sessionOfB with
            ctx := ((realmB.restoreUser (twoRealmsWith sessionOfB).ctx .invalid).2.setUser
              (realmB.restoreUser (twoRealmsWith sessionOfB).ctx .invalid).1) }) ∧
    (twoRealmsWith sessionOfB).user.1 = bob.setAuthRealm 2 :=
  ⟨(C5_user_restores (twoRealmsWith sessionOfB) rfl).1 realmB rfl, by decide⟩

/-- C5 fails as stated: the current-user property is empty, the session was left by an
`authenticate` against `"a"`, so `findRealmForPersistedUser` selects the realm `"a"`, which
would restore `bob`; `user()` however asks the default realm `"b"` (the only `fromSession`
call is made by realm 2) and returns the null user. -/
theorem C5_user_uses_default_counterexample :
    (twoRealmsWith sessionOfA).ctx.user = none ∧
    (twoRealmsWith sessionOfA).findRealmForPersistedUser = some realmA ∧
    (realmA.restoreUser (twoRealmsWith sessionOfA).ctx .invalid).1 = bob.setAuthRealm 1 ∧
    (twoRealmsWith sessionOfA).realm .null = some realmB ∧
    (twoRealmsWith sessionOfA).user.1 = {} ∧
    (twoRealmsWith sessionOfA).user.1
      ≠ (realmA.restoreUser (twoRealmsWith sessionOfA).ctx .invalid).1 ∧
    (twoRealmsWith sessionOfA).user.2.ctx.calls
      = [.fromSession 2 (realmA.m_store.forSession bob)] :=
  ⟨rfl, rfl, by decide, rfl, by decide, by decide, by decide⟩

/-- C6: for a realm name that resolves to a realm, `authenticate` returns what the credential
of that realm returns.  When that is the null user, the current-user property and the session
are as before.  When it is not and the session is valid, the property holds that user, and
the session is the former one with the realm name put under `"Authentication::userRealm"` and
then `forSession` of the user put under `"Authentication::user"`. -/
theorem C6_authenticate_delegates (a : Authentication) (userinfo : CStringHash)
    (realm : QString) (r : Realm) (hr : a.realm realm = some r) :
    (a.authenticate userinfo realm).1 = r.m_credential.authenticate r.self r.m_store userinfo ∧
    ((r.m_credential.authenticate r.self r.m_store userinfo).isNull = true →
      (a.authenticate userinfo realm).2.ctx.user = a.ctx.user ∧
      (a.authenticate userinfo realm).2.ctx.session = a.ctx.session) ∧
    ((r.m_credential.authenticate r.self r.m_store userinfo).isNull = false →
      ∀ session, a.ctx.validSession = some session →
        (a.authenticate userinfo realm).2.ctx.user
          = some (r.m_credential.authenticate r.self r.m_store userinfo) ∧
        (a.authenticate userinfo realm).2.ctx.session
          = some ((session.setValue "Authentication::userRealm" (.string realm)).setValue
              "Authentication::user"
              (r.m_store.forSession (r.m_credential.authenticate r.self r.m_store userinfo))) ∧
        ∃ s2, (a.authenticate userinfo realm).2.ctx.validSession = some s2 ∧
          s2.value "Authentication::userRealm" = .string realm ∧
          s2.value "Authentication::user"
            = r.m_store.forSession (r.m_credential.authenticate r.self r.m_store userinfo)) := by
  refine ⟨?_, ?_, ?_⟩
  · by_cases hn : (r.m_credential.authenticate r.self r.m_store userinfo).isNull = true
    · rw [Authentication.authenticate_failure a userinfo realm r hr hn]
    · simp only [Bool.not_eq_true] at hn
      cases hs : a.ctx.validSession with
      | some session => rw [Authentication.authenticate_success a userinfo realm r session hr hs hn]
      | none => simp [Authentication.authenticate, hr, Realm.authenticate, hn]
  · intro hn
    rw [Authentication.authenticate_failure a userinfo realm r hr hn]
    exact ⟨rfl, rfl⟩
  · intro hn session hs
    rw [Authentication.authenticate_success a userinfo realm r session hr hs hn]
    refine ⟨rfl, rfl, _, Context.validSession_eq_some.mpr
      ⟨rfl, (Context.validSession_eq_some.mp hs).2⟩, ?_, ?_⟩
    · rw [Session.value_setValue_other _ _ _ _ (by decide), Session.value_setValue_same]
    · rw [Session.value_setValue_same]

/-- C6, an instance: `authenticate` with no realm name on the one default realm returns `bob`,
puts him into the property, and the session holds the null realm name and his frozen form. -/
theorem C6_authenticate_delegates_witness :
    (oneRealm.authenticate bobInfo .null).1 = bob ∧
    (oneRealm.authenticate bobInfo .null).2.ctx.user = some bob ∧
    (oneRealm.authenticate bobInfo .null).2.ctx.session
      = some { valid := true
               data := [("Authentication::user", realmA.m_store.forSession bob),
                 ("Authentication::userRealm", .string .null)] } :=
  ⟨(C6_authenticate_delegates oneRealm bobInfo .null realmA rfl).1,
    ((C6_authenticate_delegates oneRealm bobInfo .null realmA rfl).2.2 (by decide)
      { valid := true } rfl).1,
    ((C6_authenticate_delegates oneRealm bobInfo .null realmA rfl).2.2 (by decide)
      { valid := true } rfl).2.1⟩

/-- C7: `authenticate` and `findUser` take the realm registered under the given name when a
name is given and the one registered under the default realm name when it is not, and hand the
work to that realm.  When no realm is registered under that name, both return the null user
and the whole state, the trace of store and credential calls included, is as before. -/
theorem C7_unresolved_realm (a : Authentication) (userinfo : CStringHash) :
    (∀ s, a.realm (.str s) = a.realms.value (.str s)) ∧
    a.realm .null = a.realms.value a.defaultRealm ∧
    (∀ realm r, a.realm realm = some r →
      (a.authenticate userinfo realm).1
        = r.m_credential.authenticate r.self r.m_store userinfo ∧
      a.findUser userinfo realm
        = ((r.findUser a.ctx userinfo).1, { a with ctx := (r.findUser a.ctx userinfo).2 })) ∧
    (∀ realm, a.realm realm = none →
      a.authenticate userinfo realm = ({}, a) ∧ a.findUser userinfo realm = ({}, a) ∧
      (a.authenticate userinfo realm).1.isNull = true ∧
      (a.findUser userinfo realm).1.isNull = true) := by
  refine ⟨fun _ => rfl, rfl, ?_, ?_⟩
  · intro realm r hr
    constructor
    · simp only [Authentication.authenticate, hr, Realm.authenticate]
      split <;> rfl
    · simp [Authentication.findUser, hr]
  · intro realm hr
    rw [Authentication.authenticate_unresolved a userinfo realm hr,
      Authentication.findUser_unresolved a userinfo realm hr]
    exact ⟨rfl, rfl, rfl, rfl⟩

/-- C7, an instance: nothing is registered under `"nowhere"`; `authenticate` and `findUser`
return the null user and the state as it was. -/
theorem C7_unresolved_realm_witness :
    oneRealm.realm (.str "nowhere") = none ∧
    oneRealm.authenticate bobInfo (.str "nowhere") = ({}, oneRealm) ∧
    oneRealm.findUser bobInfo (.str "nowhere") = ({}, oneRealm) :=
  ⟨rfl, ((C7_unresolved_realm oneRealm bobInfo).2.2.2 (.str "nowhere") rfl).1,
    ((C7_unresolved_realm oneRealm bobInfo).2.2.2 (.str "nowhere") rfl).2.1⟩

/-- C8: `Realm::findUser` only adds to the trace of calls.  It calls `autoCreateUser` once, and
returns its result, if `Store::findUser` gave the null user and `canAutoCreateUser` holds, and
does not call it otherwise; it calls `autoUpdateUser` once, and returns its result, if
`Store::findUser` gave a user that is not null and `canAutoUpdateUser` holds, and does not call
it otherwise; it never calls both; in the remaining cases it returns what `Store::findUser`
gave, so the null user when nothing matches and creation is off. -/
theorem C8_findUser_one_branch (r : Realm) (ctx : Context) (userinfo : CStringHash) :
    ∃ calls,
      (r.findUser ctx userinfo).2 = { ctx with calls := ctx.calls ++ calls } ∧
      calls.countP Call.isAutoCreate
        = (if (r.m_store.findUser userinfo).isNull = true ∧ r.m_store.canAutoCreateUser = true
            then 1 else 0) ∧
      calls.countP Call.isAutoUpdate
        = (if (r.m_store.findUser userinfo).isNull = false ∧ r.m_store.canAutoUpdateUser = true
            then 1 else 0) ∧
      calls.countP Call.isAutoCreate + calls.countP Call.isAutoUpdate ≤ 1 ∧
      ((r.m_store.findUser userinfo).isNull = true ∧ r.m_store.canAutoCreateUser = true →
        (r.findUser ctx userinfo).1 = r.m_store.autoCreateUser userinfo) ∧
      ((r.m_store.findUser userinfo).isNull = false ∧ r.m_store.canAutoUpdateUser = true →
        (r.findUser ctx userinfo).1 = r.m_store.autoUpdateUser userinfo) ∧
      (¬ ((r.m_store.findUser userinfo).isNull = true ∧ r.m_store.canAutoCreateUser = true) →
        ¬ ((r.m_store.findUser userinfo).isNull = false ∧ r.m_store.canAutoUpdateUser = true) →
        (r.findUser ctx userinfo).1 = r.m_store.findUser userinfo) ∧
      ((r.m_store.findUser userinfo).isNull = true → r.m_store.canAutoCreateUser = false →
        (r.findUser ctx userinfo).1.isNull = true) := by
  by_cases hn : (r.m_store.findUser userinfo).isNull = true
  · by_cases hc : r.m_store.canAutoCreateUser = true
    · refine ⟨[.findUser r.self userinfo, .canAutoCreateUser r.self,
        .autoCreateUser r.self userinfo], ?_⟩
      simp [Realm.findUser, hn, hc, Context.record, Call.isAutoCreate, Call.isAutoUpdate,
        List.countP_cons]
    · refine ⟨[.findUser r.self userinfo, .canAutoCreateUser r.self], ?_⟩
      simp [Realm.findUser, hn, hc, Context.record, Call.isAutoCreate, Call.isAutoUpdate,
        List.countP_cons]
  · by_cases hc : r.m_store.canAutoUpdateUser = true
    · refine ⟨[.findUser r.self userinfo, .canAutoUpdateUser r.self,
        .autoUpdateUser r.self userinfo], ?_⟩
      simp [Realm.findUser, hn, hc, Context.record, Call.isAutoCreate, Call.isAutoUpdate,
        List.countP_cons]
    · refine ⟨[.findUser r.self userinfo, .canAutoUpdateUser r.self], ?_⟩
      simp [Realm.findUser, hn, hc, Context.record, Call.isAutoCreate, Call.isAutoUpdate,
        List.countP_cons]

/-- C8, an instance: a store with creation and update on, asked for an unknown name, creates the
user, once, and updates nothing. -/
theorem C8_findUser_one_branch_witness :
    ∃ calls,
      (realmE.findUser {} [(.str "username", .str "eve")]).2
        = { ({} : Context) with calls := ([] : List Call) ++ calls } ∧
      calls.countP Call.isAutoCreate = 1 ∧
      calls.countP Call.isAutoUpdate = 0 ∧
      (realmE.findUser {} [(.str "username", .str "eve")]).1
        = { m_id := .str "new", hash := [(.str "username", .str "eve")] } := by
  obtain ⟨calls, h1, h2, h3, _, h5, _⟩ :=
    C8_findUser_one_branch realmE {} [(.str "username", .str "eve")]
  exact ⟨calls, h1, h2.trans (by decide), h3.trans (by decide), h5 (by decide)⟩

/-- C9, the code at a failing input: the realm at address 1 restores `bob` from the session.
The user it returns has the realm as back-reference, the user it has put into the current-user
property has none. -/
theorem C9_restoreUser_caches_before_setAuthRealm :
    (realmA.restoreUser { session := some sessionOfA } .invalid).1 = bob.setAuthRealm 1 ∧
    (realmA.restoreUser { session := some sessionOfA } .invalid).1.authRealm = some realmA.self ∧
    (realmA.restoreUser { session := some sessionOfA } .invalid).2.user = some bob ∧
    bob.authRealm = none := by
  decide

/-- C10: `persistUser` leaves the session and the current-user property as they are when
`userExists()` is false.  When it is true and the session is valid, the session afterwards
holds the realm name under `"Authentication::userRealm"`, and under `"Authentication::user"`
it holds `forSession` of the user if the realm name resolves and what it held before if not. -/
theorem C10_persistUser (a : Authentication) (user : User) (realmName : QString) :
    (a.userExists.1 = false →
      (a.persistUser user realmName).ctx.session = a.ctx.session ∧
      (a.persistUser user realmName).ctx.user = a.ctx.user) ∧
    (a.userExists.1 = true → ∀ session, a.ctx.validSession = some session →
      ∃ s2, (a.persistUser user realmName).ctx.validSession = some s2 ∧
        s2.value "Authentication::userRealm" = .string realmName ∧
        (∀ r, a.realm realmName = some r →
          s2.value "Authentication::user" = r.m_store.forSession user) ∧
        (a.realm realmName = none →
          s2.value "Authentication::user" = session.value "Authentication::user")) := by
  obtain ⟨hf1, hf2, hf3, hf4⟩ := a.user_frame
  constructor
  · intro hex
    have hnull : a.user.1.isNull = true := by
      simpa [Authentication.userExists] using hex
    have hp : a.persistUser user realmName = a.user.2 := by
      simp [Authentication.persistUser, Authentication.userExists, hnull]
    rw [hp]
    exact ⟨hf4, a.user_property hnull⟩
  · intro hex session hs
    obtain ⟨hsess, hv⟩ := Context.validSession_eq_some.mp hs
    have hnn : a.user.1.isNull = false := by
      simpa [Authentication.userExists] using hex
    have hr0 : a.realm realmName
        = a.realms.value (if realmName.isNull then a.defaultRealm else realmName) := rfl
    rw [hsess] at hf4
    simp only [Authentication.persistUser, Authentication.userExists, hnn, hr0]
    generalize a.user = p at hf1 hf2 hf3 hf4
    obtain ⟨u0, ⟨realms, order, dflt, ⟨sess, usr, calls⟩⟩⟩ := p
    simp only at hf1 hf2 hf3 hf4
    subst hf1 hf3 hf4
    cases hr : a.realms.value (if realmName.isNull then a.defaultRealm else realmName) with
    | some r =>
      refine ⟨(session.setValue "Authentication::userRealm" (.string realmName)).setValue
        "Authentication::user" (r.m_store.forSession user), ?_, ?_, ?_, ?_⟩
      · simp [Authentication.realm, hr, Realm.persistUser, Context.validSession,
          Session.isValid, Session.setValue, hv, Context.record]
      · rw [Session.value_setValue_other _ _ _ _ (by decide), Session.value_setValue_same]
      · intro r2 h2
        cases h2
        rw [Session.value_setValue_same]
      · intro h2; cases h2
    | none =>
      refine ⟨session.setValue "Authentication::userRealm" (.string realmName), ?_, ?_, ?_, ?_⟩
      · simp [Authentication.realm, hr, Context.validSession, Session.isValid,
          Session.setValue, hv]
      · rw [Session.value_setValue_same]
      · intro r2 h2; cases h2
      · intro _
        rw [Session.value_setValue_other _ _ _ _ (by decide)]

/-- C10, an instance: `bob` is the current user, and `persistUser` records the realm name and his
frozen form in the session. -/
theorem C10_persistUser_witness :
    oneRealmWithBob.userExists.1 = true ∧
    ∃ s2, (oneRealmWithBob.persistUser bob (.str "default")).ctx.validSession = some s2 ∧
      s2.value "Authentication::userRealm" = .string (.str "default") ∧
      s2.value "Authentication::user" = realmA.m_store.forSession bob := by
  obtain ⟨s2, h1, h2, h3, _⟩ :=
    (C10_persistUser oneRealmWithBob bob (.str "default")).2 (by decide) { valid := true } rfl
  exact ⟨by decide, s2, h1, h2, h3 realmA rfl⟩

/-! # Lemmas for the further claims -/

theorem Authentication.userInRealm_of_empty (a : Authentication) (realm : QString)
    (h : a.ctx.user = none) :
    a.userInRealm realm
      = (!(a.restoreUser .invalid realm).1.isNull, (a.restoreUser .invalid realm).2) := by
  simp [Authentication.userInRealm, h]

theorem User.isNull_ctor : ({} : User).isNull = true := rfl

/-! # The further claims -/

/-- C11 (amended): with the current-user property empty, `userInRealm(realmName)` is true
exactly when `restoreUser` with no frozen value and that realm name gives a user that is not
null.  The restoration goes through the realm registered under the name (under the default
realm name for the null name) when there is one; when there is none it goes through the realm
that `findRealmForPersistedUser` selects, and only when that gives no realm either the result
is false with nothing changed. -/
theorem C11_userInRealm_restores (a : Authentication) (realmName : QString)
    (h : a.ctx.user = none) :
    ((a.userInRealm realmName).1 = true ↔
      (a.restoreUser .invalid realmName).1.isNull = false) ∧
    (∀ r, a.realm realmName = some r →
      (a.userInRealm realmName).1 = !(r.restoreUser a.ctx .invalid).1.isNull) ∧
    (a.realm realmName = none → ∀ r, a.findRealmForPersistedUser = some r →
      (a.userInRealm realmName).1 = !(r.restoreUser a.ctx .invalid).1.isNull) ∧
    (a.realm realmName = none → a.findRealmForPersistedUser = none →
      a.userInRealm realmName = (false, a)) := by
  rw [Authentication.userInRealm_of_empty a realmName h]
  refine ⟨by simp, ?_, ?_, ?_⟩
  · intro r hr
    rw [Authentication.restoreUser_of_realm a .invalid realmName r hr]
  · intro hn r hr
    rw [Authentication.restoreUser_of_found a .invalid realmName r hn hr]
  · intro hn hf
    rw [Authentication.restoreUser_of_none a .invalid realmName hn hf]
    rfl

/-- C11, an instance: with `"b"` as default and a user frozen by its store, `userInRealm("b")`
is true, as the restoration through the realm `"b"` gives `bob`. -/
theorem C11_userInRealm_restores_witness :
    (twoRealmsWith sessionOfB).realm (.str "b") = some realmB ∧
    ((twoRealmsWith sessionOfB).userInRealm (.str "b")).1
      = !(realmB.restoreUser (twoRealmsWith sessionOfB).ctx .invalid).1.isNull ∧
    ((twoRealmsWith sessionOfB).userInRealm (.str "b")).1 = true :=
  ⟨rfl, (C11_userInRealm_restores (twoRealmsWith sessionOfB) (.str "b") rfl).2.1 realmB rfl,
    by decide⟩

/-- C11 fails as stated: the current-user property is empty and no realm is registered under
`"ghost"`, yet `userInRealm("ghost")` is true: the restoration falls back to the realm `"a"`
that the hint of the session names, and that realm restores `bob`. -/
theorem C11_userInRealm_fallback_counterexample :
    (twoRealmsWith sessionOfA).ctx.user = none ∧
    (twoRealmsWith sessionOfA).realms.value (.str "ghost") = none ∧
    (twoRealmsWith sessionOfA).realm (.str "ghost") = none ∧
    ((twoRealmsWith sessionOfA).userInRealm (.str "ghost")).1 = true ∧
    ((twoRealmsWith sessionOfA).userInRealm (.str "ghost")).2.ctx.user
      = some (bob.setAuthRealm 1) :=
  ⟨rfl, rfl, rfl, by decide, by decide⟩

/-- C12: when the current-user property holds a user, `userInRealm` is false for every realm
name, and the whole state, the trace of store calls included, is as before. -/
theorem C12_userInRealm_cached (a : Authentication) (u : User) (realmName : QString)
    (h : a.ctx.user = some u) :
    a.userInRealm realmName = (false, a) := by
  simp [Authentication.userInRealm, h]

/-- C12, an instance: `bob` is the current user, authenticated by the realm `"default"`, and
`userInRealm("default")` is false. -/
theorem C12_userInRealm_cached_witness :
    oneRealmWithBob.ctx.user = some bob ∧
    oneRealmWithBob.userInRealm (.str "default") = (false, oneRealmWithBob) :=
  ⟨rfl, C12_userInRealm_cached oneRealmWithBob bob (.str "default") rfl⟩

/-- C13 (amended): `isNull()` is true exactly of a user whose id is the null string.  The
user of the default constructor is null; a user constructed from, or set to, a string that is
not null is not null, be the string empty or not; a user constructed from, or set to, the null
string is null. -/
theorem C13_isNull_iff_null_id (u : User) (id : QString) :
    (u.isNull = true ↔ u.id = .null) ∧
    User.ctor.isNull = true ∧
    ((User.ctorId id).isNull = true ↔ id = .null) ∧
    ((u.setId id).isNull = true ↔ id = .null) ∧
    (id.isEmpty = false → (User.ctorId id).isNull = false ∧ (u.setId id).isNull = false) ∧
    (∀ s, (User.ctorId (.str s)).isNull = false ∧ (u.setId (.str s)).isNull = false) := by
  have hq : ∀ q : QString, q.isNull = true ↔ q = .null := by
    intro q; cases q <;> simp [QString.isNull]
  refine ⟨hq u.m_id, rfl, hq id, hq id, ?_, fun s => ⟨rfl, rfl⟩⟩
  intro he
  cases id with
  | null => simp [QString.isEmpty, QString.chars] at he
  | str s => exact ⟨rfl, rfl⟩

/-- C13, an instance: the user constructed from `"u1"` is not null. -/
theorem C13_isNull_iff_null_id_witness :
    (User.ctorId (.str "u1")).isNull = false ∧ (bob.setId (.str "u1")).isNull = false :=
  (C13_isNull_iff_null_id bob (.str "u1")).2.2.2.2.1 (by decide)

/-- C13 fails as stated: the string `""` is empty and not null, and the user constructed from
it, like a user set to it, is not null. -/
theorem C13_empty_id_counterexample :
    (QString.str "").isEmpty = true ∧
    (QString.str "").isNull = false ∧
    (User.ctorId (.str "")).isNull = false ∧
    (User.ctor.setId (.str "")).isNull = false := by
  decide

/-- C14: a user written to a stream with `operator<<` and read back with `operator>>` into a
user `v` gives a user with the id and the table of the one written; the realm of `v` stays as
it was, and the stream written does not depend on the realm of the user written.  What was in
the stream behind the user is left to be read. -/
theorem C14_stream_roundtrip (u v : User) (rest : List StreamItem) (realm : Option Nat) :
    (User.streamIn (User.streamOut {} u) v).2.id = u.id ∧
    (User.streamIn (User.streamOut {} u) v).2.hash = u.hash ∧
    (User.streamIn (User.streamOut {} u) v).2.authRealm = v.authRealm ∧
    (User.streamIn (User.streamOut {} u) v).1 = {} ∧
    User.streamIn { items := (User.streamOut {} u).items ++ rest } v
      = ({ items := rest }, { m_id := u.m_id, hash := u.hash, m_realm := v.m_realm }) ∧
    User.streamOut {} { u with m_realm := realm } = User.streamOut {} u ∧
    (User.streamOut {} u).items = [.string u.id, .stringHash u.hash] := by
  refine ⟨rfl, rfl, rfl, rfl, rfl, rfl, rfl⟩

/-- C15: after `setUser(u)` with a user that is not null, `user()` returns `u` and leaves the
state, the trace of store calls included, as it is, whatever the realms and the session are;
after `setUser` of a null user the current-user property is empty and `user()` is the
restoration with no frozen value and no realm name. -/
theorem C15_setUser_then_user (a : Authentication) (u : User) :
    (u.isNull = false →
      (a.setUser u).ctx.user = some u ∧
      (a.setUser u).user = (u, a.setUser u) ∧
      ∀ b : Authentication, ((b.setUser u).user).1 = ((a.setUser u).user).1) ∧
    (u.isNull = true →
      (a.setUser u).ctx.user = none ∧
      (a.setUser u).user = (a.setUser u).restoreUser .invalid .null) := by
  constructor
  · intro hn
    have h1 : ∀ c : Authentication, (c.setUser u).ctx.user = some u := by
      intro c; simp [Authentication.setUser, Context.setUser, hn]
    have h2 : ∀ c : Authentication, (c.setUser u).user = (u, c.setUser u) := by
      intro c; simp [Authentication.user, h1 c]
    exact ⟨h1 a, h2 a, fun b => by rw [h2 a, h2 b]⟩
  · intro hn
    have h1 : (a.setUser u).ctx.user = none := by
      simp [Authentication.setUser, Context.setUser, hn]
    exact ⟨h1, by simp [Authentication.user, h1]⟩

/-- C15, two instances: after `setUser(bob)` on a plugin whose session holds another frozen
user, `user()` is `bob` and no store was called; after `setUser` of the null user, `user()`
restores from the session again. -/
theorem C15_setUser_then_user_witness :
    (((twoRealmsWith sessionOfB).setUser bob).user
      = (bob, (twoRealmsWith sessionOfB).setUser bob) ∧
      (((twoRealmsWith sessionOfB).setUser bob).user).2.ctx.calls = []) ∧
    ((oneRealmWithBob.setUser {}).ctx.user = none ∧
      (oneRealmWithBob.setUser {}).user
        = (oneRealmWithBob.setUser {}).restoreUser .invalid .null) :=
  ⟨⟨((C15_setUser_then_user (twoRealmsWith sessionOfB) bob).1 (by decide)).2.1, by decide⟩,
    (C15_setUser_then_user oneRealmWithBob {}).2 rfl⟩

/-- C16: `addRealm(name, realm, defaultRealm)` makes the lookup of `name` give `realm`, leaves
the lookup of every name with other characters as it was, appends `name` to the order list,
be it there already or not, sets the default realm name to `name` if `defaultRealm` holds and
leaves it otherwise, and does not touch the request.  The one-argument form is the call with
`"default"` and `true`. -/
theorem C16_addRealm (a : Authentication) (name : QString) (realm : Option Realm)
    (isDefault : Bool) :
    (a.addRealm name realm isDefault).realms.value name = realm ∧
    (∀ other : QString, other.chars ≠ name.chars →
      (a.addRealm name realm isDefault).realms.value other = a.realms.value other) ∧
    (a.addRealm name realm isDefault).realmsOrder = a.realmsOrder ++ [name] ∧
    (a.addRealm name realm isDefault).defaultRealm
      = (if isDefault then name else a.defaultRealm) ∧
    (a.addRealm name realm isDefault).ctx = a.ctx ∧
    a.addRealmDefault realm = a.addRealm (.str "default") realm true ∧
    (a.addRealmDefault realm).realms.value (.str "default") = realm ∧
    (a.addRealmDefault realm).defaultRealm = .str "default" := by
  have hv : ∀ (n : QString) (d : Bool), (a.addRealm n realm d).realms.value n = realm := by
    intro n d
    simp [Authentication.addRealm, RealmMap.value_insert]
  refine ⟨hv name isDefault, ?_, rfl, rfl, rfl, rfl, hv _ _, rfl⟩
  intro other ho
  simp only [Authentication.addRealm, RealmMap.value_insert]
  rw [if_neg (fun e => ho e.symm)]

/-- C16, an instance: on `twoRealms`, registering the realm at address 4 under `"a"` again,
not as default, replaces the realm `"a"`, keeps the realm `"b"` and the default name `"b"`,
and the order list names `"a"` twice. -/
theorem C16_addRealm_witness :
    (twoRealms.addRealm (.str "a") (some realmE) false).realms.value (.str "a") = some realmE ∧
    (twoRealms.addRealm (.str "a") (some realmE) false).realms.value (.str "b")
      = twoRealms.realms.value (.str "b") ∧
    (twoRealms.addRealm (.str "a") (some realmE) false).realmsOrder
      = [.str "a", .str "b", .str "a"] ∧
    (twoRealms.addRealm (.str "a") (some realmE) false).defaultRealm = .str "b" :=
  ⟨(C16_addRealm twoRealms (.str "a") (some realmE) false).1,
    (C16_addRealm twoRealms (.str "a") (some realmE) false).2.1 (.str "b") (by decide),
    by decide, by decide⟩

/-! ## The registry under the request operations -/

theorem Authentication.sameRegistry_withCtx (a : Authentication) (ctx : Context) :
    ({ a with ctx := ctx } : Authentication).SameRegistry a :=
  ⟨rfl, rfl, rfl⟩

theorem Authentication.sameRegistry_trans {a b c : Authentication} (h1 : a.SameRegistry b)
    (h2 : b.SameRegistry c) : a.SameRegistry c :=
  ⟨h1.1.trans h2.1, h1.2.1.trans h2.2.1, h1.2.2.trans h2.2.2⟩

theorem Authentication.user_registry (a : Authentication) : a.user.2.SameRegistry a :=
  ⟨a.user_frame.1, a.user_frame.2.1, a.user_frame.2.2.1⟩

theorem Authentication.restoreUser_registry (a : Authentication) (frozenUser : QVariant)
    (realmName : QString) : (a.restoreUser frozenUser realmName).2.SameRegistry a :=
  ⟨(a.restoreUser_frame frozenUser realmName).1, (a.restoreUser_frame frozenUser realmName).2.1,
    (a.restoreUser_frame frozenUser realmName).2.2.1⟩

theorem Authentication.persistUser_registry (a : Authentication) (user : User)
    (realmName : QString) : (a.persistUser user realmName).SameRegistry a := by
  have hu := a.user_registry
  unfold Authentication.persistUser Authentication.userExists
  simp only
  generalize a.user = p at hu
  split
  · split
    · split
      · exact Authentication.sameRegistry_trans ⟨rfl, rfl, rfl⟩ hu
      · exact Authentication.sameRegistry_trans ⟨rfl, rfl, rfl⟩ hu
    · split
      · exact Authentication.sameRegistry_trans ⟨rfl, rfl, rfl⟩ hu
      · exact hu
  · exact hu

theorem Authentication.authenticate_registry (a : Authentication) (userinfo : CStringHash)
    (realm : QString) : (a.authenticate userinfo realm).2.SameRegistry a := by
  unfold Authentication.authenticate
  split
  · simp only
    split
    · exact Authentication.sameRegistry_trans
        (Authentication.persistUser_registry _ _ _) ⟨rfl, rfl, rfl⟩
    · exact ⟨rfl, rfl, rfl⟩
  · exact ⟨rfl, rfl, rfl⟩

theorem Authentication.findUser_registry (a : Authentication) (userinfo : CStringHash)
    (realm : QString) : (a.findUser userinfo realm).2.SameRegistry a := by
  unfold Authentication.findUser
  split <;> exact ⟨rfl, rfl, rfl⟩

theorem Authentication.userInRealm_registry (a : Authentication) (realm : QString) :
    (a.userInRealm realm).2.SameRegistry a := by
  unfold Authentication.userInRealm
  split
  · exact a.restoreUser_registry .invalid realm
  · exact ⟨rfl, rfl, rfl⟩

theorem Authentication.logout_registry (a : Authentication) : a.logout.SameRegistry a := by
  unfold Authentication.logout
  simp only
  split <;> exact ⟨rfl, rfl, rfl⟩

theorem Authentication.step_registry (a : Authentication) (op : Op)
    (h : op.registers = false) : (a.step op).SameRegistry a := by
  cases op with
  | addRealm name realm isDefault => simp [Op.registers] at h
  | addRealmDefault realm => simp [Op.registers] at h
  | authenticate userinfo realm => exact a.authenticate_registry userinfo realm
  | findUser userinfo realm => exact a.findUser_registry userinfo realm
  | user => exact a.user_registry
  | setUser user => exact ⟨rfl, rfl, rfl⟩
  | userInRealm realm => exact a.userInRealm_registry realm
  | logout => exact a.logout_registry

theorem RealmMap.contains_insert (m : RealmMap) (key key2 : QString) (v : Option Realm) :
    (m.insert key v).contains key2 = (key.chars == key2.chars || m.contains key2) := by
  by_cases h : key.chars = key2.chars
  · simp [RealmMap.insert, RealmMap.contains, h]
  · have hf : ∀ l : List (QString × Option Realm),
        (l.filter (fun p => p.1.chars != key.chars)).any (fun p => p.1.chars == key2.chars)
          = l.any (fun p => p.1.chars == key2.chars) := by
      intro l
      induction l with
      | nil => rfl
      | cons p l ih =>
        by_cases hp : p.1.chars = key.chars
        · simp [List.filter_cons, hp, h, ih]
        · simp [List.filter_cons, hp, ih]
    simp [RealmMap.insert, RealmMap.contains, h, hf]

theorem Authentication.addRealm_contains (a : Authentication) (name : QString)
    (realm : Option Realm) (isDefault : Bool) (key : QString) :
    (a.addRealm name realm isDefault).realms.contains key
      = (name.chars == key.chars || a.realms.contains key) := by
  simp [Authentication.addRealm, RealmMap.contains_insert]

/-- One call keeps the keys of the registry, keeps the order list within the keys, and either
makes the default realm name a key or leaves it as it is -/
theorem Authentication.step_invariant (a : Authentication) (op : Op) :
    (∀ key, a.realms.contains key = true → (a.step op).realms.contains key = true) ∧
    ((∀ n ∈ a.realmsOrder, a.realms.contains n = true) →
      ∀ n ∈ (a.step op).realmsOrder, (a.step op).realms.contains n = true) ∧
    (op.registersDefault = true →
      (a.step op).realms.contains (a.step op).defaultRealm = true) ∧
    (op.registersDefault = false → (a.step op).defaultRealm = a.defaultRealm) := by
  have hadd : ∀ (name : QString) (realm : Option Realm) (isDefault : Bool),
      (∀ key, a.realms.contains key = true →
        (a.addRealm name realm isDefault).realms.contains key = true) ∧
      ((∀ n ∈ a.realmsOrder, a.realms.contains n = true) →
        ∀ n ∈ (a.addRealm name realm isDefault).realmsOrder,
          (a.addRealm name realm isDefault).realms.contains n = true) ∧
      (isDefault = true →
        (a.addRealm name realm isDefault).realms.contains
          (a.addRealm name realm isDefault).defaultRealm = true) ∧
      (isDefault = false → (a.addRealm name realm isDefault).defaultRealm = a.defaultRealm) := by
    intro name realm isDefault
    refine ⟨?_, ?_, ?_, ?_⟩
    · intro key hk
      simp [Authentication.addRealm_contains, hk]
    · intro ho n hn
      have hn2 : n ∈ a.realmsOrder ++ [name] := hn
      rcases List.mem_append.mp hn2 with h1 | h1
      · simp [Authentication.addRealm_contains, ho n h1]
      · have : n = name := by simpa using h1
        simp [Authentication.addRealm_contains, this]
    · intro hd
      subst hd
      rw [Authentication.addRealm_contains]
      simp [Authentication.addRealm]
    · intro hd
      subst hd
      rfl
  have hreq : op.registers = false →
      (∀ key, a.realms.contains key = true → (a.step op).realms.contains key = true) ∧
      ((∀ n ∈ a.realmsOrder, a.realms.contains n = true) →
        ∀ n ∈ (a.step op).realmsOrder, (a.step op).realms.contains n = true) ∧
      (a.step op).defaultRealm = a.defaultRealm := by
    intro h
    obtain ⟨h1, h2, h3⟩ := a.step_registry op h
    refine ⟨?_, ?_, h3⟩
    · intro key hk; rw [h1]; exact hk
    · intro ho n hn; rw [h1]; rw [h2] at hn; exact ho n hn
  cases op with
  | addRealm name realm isDefault => exact hadd name realm isDefault
  | addRealmDefault realm =>
    obtain ⟨h1, h2, h3, _⟩ := hadd (.str "default") realm true
    exact ⟨h1, h2, fun _ => h3 rfl, fun h => by simp [Op.registersDefault] at h⟩
  | authenticate userinfo realm =>
    obtain ⟨h1, h2, h3⟩ := hreq rfl
    exact ⟨h1, h2, fun h => by simp [Op.registersDefault] at h, fun _ => h3⟩
  | findUser userinfo realm =>
    obtain ⟨h1, h2, h3⟩ := hreq rfl
    exact ⟨h1, h2, fun h => by simp [Op.registersDefault] at h, fun _ => h3⟩
  | user =>
    obtain ⟨h1, h2, h3⟩ := hreq rfl
    exact ⟨h1, h2, fun h => by simp [Op.registersDefault] at h, fun _ => h3⟩
  | setUser user =>
    obtain ⟨h1, h2, h3⟩ := hreq rfl
    exact ⟨h1, h2, fun h => by simp [Op.registersDefault] at h, fun _ => h3⟩
  | userInRealm realm =>
    obtain ⟨h1, h2, h3⟩ := hreq rfl
    exact ⟨h1, h2, fun h => by simp [Op.registersDefault] at h, fun _ => h3⟩
  | logout =>
    obtain ⟨h1, h2, h3⟩ := hreq rfl
    exact ⟨h1, h2, fun h => by simp [Op.registersDefault] at h, fun _ => h3⟩

theorem Authentication.run_invariant (ops : List Op) :
    ∀ a : Authentication, (∀ n ∈ a.realmsOrder, a.realms.contains n = true) →
      (∀ n ∈ (a.run ops).realmsOrder, (a.run ops).realms.contains n = true) ∧
      ((∃ op ∈ ops, op.registersDefault = true) →
        (a.run ops).realms.contains (a.run ops).defaultRealm = true) ∧
      ((∀ op ∈ ops, op.registersDefault = false) →
        (a.run ops).defaultRealm = a.defaultRealm) ∧
      (a.realms.contains a.defaultRealm = true →
        (a.run ops).realms.contains (a.run ops).defaultRealm = true) := by
  induction ops with
  | nil =>
    intro a ho
    refine ⟨ho, ?_, fun _ => rfl, fun h => h⟩
    rintro ⟨op, h, _⟩
    cases h
  | cons op ops ih =>
    intro a ho
    obtain ⟨s1, s2, s3, s4⟩ := a.step_invariant op
    obtain ⟨i1, i2, i3, i4⟩ := ih (a.step op) (s2 ho)
    have hrun : a.run (op :: ops) = (a.step op).run ops := rfl
    rw [hrun]
    refine ⟨i1, ?_, ?_, ?_⟩
    · rintro ⟨op2, hmem, hd⟩
      rcases List.mem_cons.mp hmem with rfl | hmem
      · exact i4 (s3 hd)
      · exact i2 ⟨op2, hmem, hd⟩
    · intro hall
      rw [i3 (fun o ho => hall o (List.mem_cons_of_mem _ ho)),
        s4 (hall op (List.mem_cons_self _ _))]
    · intro hc
      by_cases hd : op.registersDefault = true
      · exact i4 (s3 hd)
      · simp only [Bool.not_eq_true] at hd
        apply i4
        rw [s4 hd]
        exact s1 _ hc

theorem Authentication.step_keys_lead (a : Authentication) (op : Op)
    (hop : op.givesRealm = true)
    (h : ∀ key, a.realms.contains key = true → ∃ r, a.realms.value key = some r) :
    ∀ key, (a.step op).realms.contains key = true →
      ∃ r, (a.step op).realms.value key = some r := by
  have hadd : ∀ (name : QString) (r0 : Realm) (isDefault : Bool) (key : QString),
      (a.addRealm name (some r0) isDefault).realms.contains key = true →
      ∃ r, (a.addRealm name (some r0) isDefault).realms.value key = some r := by
    intro name r0 isDefault key hk
    rw [Authentication.addRealm_contains] at hk
    simp only [Authentication.addRealm, RealmMap.value_insert]
    by_cases hc : name.chars = key.chars
    · exact ⟨r0, by rw [if_pos hc]⟩
    · rw [if_neg hc]
      apply h
      simpa [hc] using hk
  have hreq : op.registers = false → ∀ key, (a.step op).realms.contains key = true →
      ∃ r, (a.step op).realms.value key = some r := by
    intro hreg key hk
    obtain ⟨h1, _, _⟩ := a.step_registry op hreg
    rw [h1] at hk ⊢
    exact h key hk
  cases op with
  | addRealm name realm isDefault =>
    cases realm with
    | none => simp [Op.givesRealm] at hop
    | some r0 => exact hadd name r0 isDefault
  | addRealmDefault realm =>
    cases realm with
    | none => simp [Op.givesRealm] at hop
    | some r0 => exact hadd (.str "default") r0 true
  | authenticate userinfo realm => exact hreq rfl
  | findUser userinfo realm => exact hreq rfl
  | user => exact hreq rfl
  | setUser user => exact hreq rfl
  | userInRealm realm => exact hreq rfl
  | logout => exact hreq rfl

theorem Authentication.run_keys_lead (ops : List Op) :
    ∀ a : Authentication, (∀ op ∈ ops, op.givesRealm = true) →
      (∀ key, a.realms.contains key = true → ∃ r, a.realms.value key = some r) →
      ∀ key, (a.run ops).realms.contains key = true →
        ∃ r, (a.run ops).realms.value key = some r := by
  induction ops with
  | nil => intro a _ h; exact h
  | cons op ops ih =>
    intro a hall h
    exact ih (a.step op) (fun o ho => hall o (List.mem_cons_of_mem _ ho))
      (a.step_keys_lead op (hall op (List.mem_cons_self _ _)) h)

/-- C17 (amended): after any sequence of `addRealm` calls and request operations on a plugin
with no realm, every name in the order list is a key of the registry; the default realm name
is a key of the registry as soon as one realm has been registered as default, and is still the
null name as long as none has, whatever has been registered otherwise.  When no `addRealm`
call was given a null pointer, a key of the registry leads to a realm: so does every name in
the order list, and so does the default realm name as soon as one realm has been registered as
default. -/
theorem C17_registry_invariant (ctx : Context) (ops : List Op) :
    (∀ n ∈ (({ ctx := ctx } : Authentication).run ops).realmsOrder,
      (({ ctx := ctx } : Authentication).run ops).realms.contains n = true) ∧
    ((∃ op ∈ ops, op.registersDefault = true) →
      (({ ctx := ctx } : Authentication).run ops).realms.contains
        (({ ctx := ctx } : Authentication).run ops).defaultRealm = true) ∧
    ((∀ op ∈ ops, op.registersDefault = false) →
      (({ ctx := ctx } : Authentication).run ops).defaultRealm = .null) ∧
    ((∀ op ∈ ops, op.givesRealm = true) →
      (∀ n ∈ (({ ctx := ctx } : Authentication).run ops).realmsOrder,
        ∃ r, (({ ctx := ctx } : Authentication).run ops).realms.value n = some r) ∧
      ((∃ op ∈ ops, op.registersDefault = true) →
        ∃ r, (({ ctx := ctx } : Authentication).run ops).realm .null = some r ∧
          (({ ctx := ctx } : Authentication).run ops).realms.value
            (({ ctx := ctx } : Authentication).run ops).defaultRealm = some r)) := by
  obtain ⟨h1, h2, h3, _⟩ := Authentication.run_invariant ops ({ ctx := ctx } : Authentication)
    (by intro n hn; cases hn)
  refine ⟨h1, h2, h3, ?_⟩
  intro hall
  have hlead := Authentication.run_keys_lead ops ({ ctx := ctx } : Authentication) hall
    (by intro key hk; simp [RealmMap.contains] at hk)
  refine ⟨fun n hn => hlead n (h1 n hn), ?_⟩
  intro hdef
  obtain ⟨r, hr⟩ := hlead _ (h2 hdef)
  exact ⟨r, hr, hr⟩

/-- C17, an instance: two registrations, the second as default, with an `authenticate` and a
`logout` in between and after; the default name `"b"` is a key of the registry and leads to a
realm. -/
theorem C17_registry_invariant_witness :
    (({ ctx := emptyRequest } : Authentication).run
      [.addRealm (.str "a") (some realmA) false, .authenticate bobInfo (.str "a"),
        .addRealm (.str "b") (some realmB) true, .logout]).realms.contains
      (({ ctx := emptyRequest } : Authentication).run
        [.addRealm (.str "a") (some realmA) false, .authenticate bobInfo (.str "a"),
          .addRealm (.str "b") (some realmB) true, .logout]).defaultRealm = true ∧
    ∃ r, (({ ctx := emptyRequest } : Authentication).run
      [.addRealm (.str "a") (some realmA) false, .authenticate bobInfo (.str "a"),
        .addRealm (.str "b") (some realmB) true, .logout]).realm .null = some r :=
  ⟨(C17_registry_invariant emptyRequest
      [.addRealm (.str "a") (some realmA) false, .authenticate bobInfo (.str "a"),
        .addRealm (.str "b") (some realmB) true, .logout]).2.1
      ⟨.addRealm (.str "b") (some realmB) true, by simp, rfl⟩,
    (((C17_registry_invariant emptyRequest
      [.addRealm (.str "a") (some realmA) false, .authenticate bobInfo (.str "a"),
        .addRealm (.str "b") (some realmB) true, .logout]).2.2.2
      (by intro op hop; simp at hop; rcases hop with rfl | rfl | rfl | rfl <;> rfl)).2
      ⟨.addRealm (.str "b") (some realmB) true, by simp, rfl⟩).imp (fun _ h => h.1)⟩

/-- C17 fails as stated, at two inputs.  First: after the one call
`addRealm("a", realm, false)` a realm is registered, and the default realm name is still the
null name, which is no key of the registry and resolves to no realm.  Second: after
`addRealm("a", realm, true)` and `addRealm("x", 0, true)` the realm `"a"` is registered, and
the default realm name `"x"` is a key of the registry under which the null pointer is stored,
so it resolves to no realm. -/
theorem C17_default_unset_counterexample :
    (Op.registers (.addRealm (.str "a") (some realmA) false) = true ∧
      (({ ctx := emptyRequest } : Authentication).run
        [.addRealm (.str "a") (some realmA) false]).realms.value (.str "a") = some realmA ∧
      (({ ctx := emptyRequest } : Authentication).run
        [.addRealm (.str "a") (some realmA) false]).defaultRealm = .null ∧
      (({ ctx := emptyRequest } : Authentication).run
        [.addRealm (.str "a") (some realmA) false]).realms.contains .null = false ∧
      (({ ctx := emptyRequest } : Authentication).run
        [.addRealm (.str "a") (some realmA) false]).realm .null = none) ∧
    (Op.registersDefault (.addRealm (.str "a") (some realmA) true) = true ∧
      (({ ctx := emptyRequest } : Authentication).run
        [.addRealm (.str "a") (some realmA) true, .addRealm (.str "x") none true]).realms.value
        (.str "a") = some realmA ∧
      (({ ctx := emptyRequest } : Authentication).run
        [.addRealm (.str "a") (some realmA) true, .addRealm (.str "x") none true]).defaultRealm
        = .str "x" ∧
      (({ ctx := emptyRequest } : Authentication).run
        [.addRealm (.str "a") (some realmA) true, .addRealm (.str "x") none true]).realms.contains
        (.str "x") = true ∧
      (({ ctx := emptyRequest } : Authentication).run
        [.addRealm (.str "a") (some realmA) true, .addRealm (.str "x") none true]).realm .null
        = none) :=
  ⟨⟨rfl, rfl, rfl, by decide, rfl⟩, ⟨rfl, rfl, rfl, by decide, rfl⟩⟩

/-! ## Logout and the scan revisited -/

theorem Authentication.scanRealms_eq (a : Authentication) (v : QVariant)
    (hv : ∀ r : Realm, r.userIsRestorable a.ctx = v) (l : List QString) :
    a.scanRealms l
      = if v.isNull then none else l.findSome? (fun name => a.realms.value name) := by
  induction l with
  | nil => simp [Authentication.scanRealms]
  | cons n l ih =>
    cases hn : a.realms.value n with
    | none => simp [Authentication.scanRealms, hn, ih, List.findSome?_cons]
    | some r =>
      by_cases hnull : v.isNull = true
      · simp [Authentication.scanRealms, hn, hv, hnull, ih]
      · simp [Authentication.scanRealms, hn, hv, hnull, List.findSome?_cons]

/-- Logout with a usable hint: on a plugin set up by `addRealm` calls, with a registered
realm and a hint that is absent or names a registered realm, `user()` after `logout()` is
null -/
theorem Authentication.logout_ends_identity (ctx : Context)
    (regs : List (QString × Option Realm × Bool)) (session : Session)
    (hs : ctx.validSession = some session)
    (hreg : ∃ name r, (Authentication.configured ctx regs).realms.value name = some r)
    (hhint : (session.value "Authentication::userRealm").isNull = true ∨
      ∃ r, (Authentication.configured ctx regs).realms.value
        (session.value "Authentication::userRealm").toString = some r) :
    (((Authentication.configured ctx regs).logout).user).1.isNull = true := by
  have hcov := Authentication.orderCovers_configured ctx regs
  have hctx := Authentication.configured_ctx ctx regs
  generalize Authentication.configured ctx regs = a at hreg hhint hcov hctx ⊢
  subst hctx
  have hv := (Context.validSession_eq_some.mp hs).2
  have hs1 : (a.setUser {}).ctx.validSession = some session := by
    rw [← hs]; exact Context.validSession_of_session rfl
  have hfinish : ∀ b : Authentication, b.ctx.user = none →
      (∀ r : Realm, (r.userIsRestorable b.ctx).isNull = true) → b.user.1.isNull = true := by
    intro b h1 h2
    rw [Authentication.user_of_nothing b h1 h2]
    rfl
  cases hf : (a.setUser {}).findRealmForPersistedUser with
  | some r2 =>
    rw [Authentication.logout_of_found a r2 session hs hf]
    apply hfinish _ rfl
    intro r
    have hval : ({ session := some ((session.deleteValue "Authentication::user").deleteValue
        "Authentication::userRealm"), user := none, calls := a.ctx.calls } : Context).validSession
        = some ((session.deleteValue "Authentication::user").deleteValue
          "Authentication::userRealm") :=
      Context.validSession_eq_some.mpr ⟨rfl, hv⟩
    rw [r.userIsRestorable_of_valid hval,
      Session.value_deleteValue_other _ _ _ (by decide), Session.value_deleteValue_same]
    rfl
  | none =>
    rw [Authentication.logout_of_none a hf]
    apply hfinish _ rfl
    intro r
    rw [r.userIsRestorable_of_valid hs1]
    by_contra hnn
    simp only [Bool.not_eq_true] at hnn
    rcases hhint with hh | ⟨r3, hr3⟩
    · have hscan : (a.setUser {}).findRealmForPersistedUser
          = (a.setUser {}).scanRealms (a.setUser {}).realmsOrder := by
        apply Authentication.findRealm_no_hint
        intro s3 h3
        rw [hs1] at h3
        cases h3
        exact hh
      rw [hscan] at hf
      obtain ⟨name, r0, hr0⟩ := hreg
      obtain ⟨m, hm, hmn⟩ := hcov name r0 hr0
      have hval : (a.setUser {}).realms.value m = some r0 := by
        show a.realms.value m = some r0
        rw [RealmMap.value_congr _ hmn]; exact hr0
      have hnull := ((a.setUser {}).scanRealms_none (a.setUser {}).realmsOrder).mp hf m hm r0 hval
      rw [r0.userIsRestorable_of_valid hs1, hnn] at hnull
      cases hnull
    · by_cases hh : (session.value "Authentication::userRealm").isNull = true
      · have hscan : (a.setUser {}).findRealmForPersistedUser
            = (a.setUser {}).scanRealms (a.setUser {}).realmsOrder := by
          apply Authentication.findRealm_no_hint
          intro s3 h3
          rw [hs1] at h3
          cases h3
          exact hh
        rw [hscan] at hf
        obtain ⟨m, hm, hmn⟩ := hcov _ r3 hr3
        have hval : (a.setUser {}).realms.value m = some r3 := by
          show a.realms.value m = some r3
          rw [RealmMap.value_congr _ hmn]; exact hr3
        have hnull :=
          ((a.setUser {}).scanRealms_none (a.setUser {}).realmsOrder).mp hf m hm r3 hval
        rw [r3.userIsRestorable_of_valid hs1, hnn] at hnull
        cases hnull
      · simp only [Bool.not_eq_true] at hh
        have := Authentication.findRealm_of_hint (a.setUser {}) session r3 hs1 hh hr3 hnn
        rw [this] at hf
        cases hf

/-- With a hint in the valid session that names no registered realm, `logout()` only empties
the current-user property -/
theorem Authentication.logout_stale_hint (a : Authentication) (session : Session)
    (hs : a.ctx.validSession = some session)
    (hh : (session.value "Authentication::userRealm").isNull = false)
    (hr : a.realms.value (session.value "Authentication::userRealm").toString = none) :
    a.logout = a.setUser {} := by
  apply Authentication.logout_of_none
  apply Authentication.findRealm_hint_nothing (a.setUser {}) session
  · rw [← hs]; exact Context.validSession_of_session rfl
  · exact hh
  · intro realm hrealm
    have h2 : a.realms.value (session.value "Authentication::userRealm").toString
        = some realm := hrealm
    rw [hr] at h2
    cases h2

/-- C18 (amended): on a plugin set up by `addRealm` calls, with a valid session.  If at least
one realm is registered and the session holds no realm-name hint or a hint that names a
registered realm, then after `logout()` a following `user()` returns the null user.  If the
session holds a hint that names no registered realm, `logout()` only empties the current-user
property: the session is as before, and a following `user()` is the restoration from that
session, which, when the default realm is registered and its store thaws the frozen user of
the session to a user that is not null, returns that user. -/
theorem C18_logout_then_user (ctx : Context) (regs : List (QString × Option Realm × Bool))
    (session : Session)
    (hs : ctx.validSession = some session) :
    ((∃ name r, (Authentication.configured ctx regs).realms.value name = some r) →
      ((session.value "Authentication::userRealm").isNull = true ∨
        ∃ r, (Authentication.configured ctx regs).realms.value
          (session.value "Authentication::userRealm").toString = some r) →
      (((Authentication.configured ctx regs).logout).user).1.isNull = true) ∧
    ((session.value "Authentication::userRealm").isNull = false →
      (Authentication.configured ctx regs).realms.value
        (session.value "Authentication::userRealm").toString = none →
      (Authentication.configured ctx regs).logout
        = (Authentication.configured ctx regs).setUser {} ∧
      ((Authentication.configured ctx regs).logout).ctx.session = ctx.session ∧
      ((Authentication.configured ctx regs).logout).ctx.user = none ∧
      ((Authentication.configured ctx regs).logout).user
        = ((Authentication.configured ctx regs).setUser {}).restoreUser .invalid .null ∧
      ∀ r, (Authentication.configured ctx regs).realm .null = some r →
        (session.value "Authentication::user").isNull = false →
        (r.m_store.fromSession (session.value "Authentication::user")).isNull = false →
        (((Authentication.configured ctx regs).logout).user).1
          = (r.m_store.fromSession (session.value "Authentication::user")).setAuthRealm
              r.self) := by
  refine ⟨fun hreg hhint => Authentication.logout_ends_identity ctx regs session hs hreg hhint,
    ?_⟩
  intro hh hr
  have hctx := Authentication.configured_ctx ctx regs
  generalize Authentication.configured ctx regs = a at hr hctx ⊢
  subst hctx
  have hlog := Authentication.logout_stale_hint a session hs hh hr
  have hs1 : (a.setUser {}).ctx.validSession = some session := by
    rw [← hs]; exact Context.validSession_of_session rfl
  have huser : (a.setUser {}).user = (a.setUser {}).restoreUser .invalid .null := by
    simp [Authentication.user, Authentication.setUser, Context.setUser, User.isNull,
      QString.isNull]
  rw [hlog]
  refine ⟨rfl, rfl, rfl, huser, ?_⟩
  intro r hrealm hf hu
  rw [huser, Authentication.restoreUser_of_realm (a.setUser {}) .invalid .null r hrealm,
    Authentication.restore_through r (a.setUser {}).ctx session _ hs1 hf rfl hu]

/-- C18, two instances: with the hint of the session naming the registered realm `"a"`,
`user()` after `logout()` is null; with the hint naming no registered realm, `logout()` leaves
the session as it is. -/
theorem C18_logout_then_user_witness :
    (((twoRealmsWith sessionOfA).logout).user).1.isNull = true ∧
    ((twoRealmsWith sessionOfGhost).logout).ctx.session = some sessionOfGhost :=
  ⟨(C18_logout_then_user { session := some sessionOfA }
      [(.str "a", some realmA, false), (.str "b", some realmB, true)] sessionOfA rfl).1
      ⟨.str "a", realmA, rfl⟩ (Or.inr ⟨realmA, rfl⟩),
    ((C18_logout_then_user { session := some sessionOfGhost }
      [(.str "a", some realmA, false), (.str "b", some realmB, true)] sessionOfGhost rfl).2
      (by decide) rfl).2.1⟩

/-- C18 fails as stated: one realm is registered, as default, and the valid session holds a
frozen user and a hint that names no registered realm.  `logout()` finds no realm, leaves the
session as it is, and the following `user()` restores `bob` through the default realm. -/
theorem C18_logout_stale_hint_counterexample :
    (oneRealmWith sessionOfGhost).realm .null = some realmA ∧
    (oneRealmWith sessionOfGhost).ctx.validSession = some sessionOfGhost ∧
    (oneRealmWith sessionOfGhost).realms.value (.str "ghost") = none ∧
    ((oneRealmWith sessionOfGhost).logout).ctx.session = some sessionOfGhost ∧
    (((oneRealmWith sessionOfGhost).logout).user).1 = bob.setAuthRealm 1 ∧
    (((oneRealmWith sessionOfGhost).logout).user).1.isNull = false :=
  ⟨rfl, rfl, rfl, by decide, by decide, by decide⟩

/-- C19: `Realm::userIsRestorable` gives the same value for any two realms: what the valid
session holds under `"Authentication::user"`, the invalid variant when there is no valid
session.  So without a valid session `findRealmForPersistedUser` finds nothing, and with a valid
session that holds no realm-name hint it gives the first realm the order list leads to if the
session holds a frozen user, and nothing otherwise; the store that froze the user plays no
part. -/
theorem C19_userIsRestorable_realm_independent (a : Authentication) :
    (∀ (r r2 : Realm) (ctx : Context), r.userIsRestorable ctx = r2.userIsRestorable ctx) ∧
    (∀ (r : Realm) (ctx : Context) (session : Session), ctx.validSession = some session →
      r.userIsRestorable ctx = session.value "Authentication::user") ∧
    (∀ (r : Realm) (ctx : Context), ctx.validSession = none →
      r.userIsRestorable ctx = .invalid) ∧
    (a.ctx.validSession = none → a.findRealmForPersistedUser = none) ∧
    (∀ session, a.ctx.validSession = some session →
      (session.value "Authentication::userRealm").isNull = true →
      a.findRealmForPersistedUser
        = if (session.value "Authentication::user").isNull then none else a.firstRealm) ∧
    (∀ session name rest r, a.ctx.validSession = some session →
      (session.value "Authentication::userRealm").isNull = true →
      (session.value "Authentication::user").isNull = false →
      a.realmsOrder = name :: rest → a.realms.value name = some r →
      a.findRealmForPersistedUser = some r) := by
  have hvalid : ∀ (r : Realm) (ctx : Context) (session : Session),
      ctx.validSession = some session →
      r.userIsRestorable ctx = session.value "Authentication::user" :=
    fun r ctx session h => r.userIsRestorable_of_valid h
  have hnone : ∀ (r : Realm) (ctx : Context), ctx.validSession = none →
      r.userIsRestorable ctx = .invalid := by
    intro r ctx h
    simp [Realm.userIsRestorable, h]
  have hmain : ∀ session, a.ctx.validSession = some session →
      (session.value "Authentication::userRealm").isNull = true →
      a.findRealmForPersistedUser
        = if (session.value "Authentication::user").isNull then none else a.firstRealm := by
    intro session hs hh
    rw [Authentication.findRealm_no_hint a (fun s3 h3 => by
      rw [hs] at h3; cases h3; exact hh)]
    exact a.scanRealms_eq _ (fun r => hvalid r a.ctx session hs) a.realmsOrder
  refine ⟨fun _ _ _ => rfl, hvalid, hnone, ?_, hmain, ?_⟩
  · intro hs
    rw [Authentication.findRealm_no_hint a (fun s3 h3 => by rw [hs] at h3; cases h3)]
    rw [a.scanRealms_eq .invalid (fun r => hnone r a.ctx hs) a.realmsOrder]
    rfl
  · intro session name rest r hs hh hf ho hr
    rw [hmain session hs hh, hf]
    simp [Authentication.firstRealm, ho, List.findSome?_cons, hr]

/-- C19, an instance: `"a"` is registered before `"b"`; the session holds no hint and a user
frozen by the store of `"b"`; the realm found is `"a"`. -/
theorem C19_userIsRestorable_realm_independent_witness :
    (sessionOfB.deleteValue "Authentication::userRealm").value "Authentication::user"
      = realmB.m_store.forSession bob ∧
    (twoRealmsWith (sessionOfB.deleteValue "Authentication::userRealm")).findRealmForPersistedUser
      = some realmA :=
  ⟨by decide,
    (C19_userIsRestorable_realm_independent
      (twoRealmsWith (sessionOfB.deleteValue "Authentication::userRealm"))).2.2.2.2.2
      (sessionOfB.deleteValue "Authentication::userRealm") (.str "a") [.str "b"] realmA
      rfl (by decide) (by decide) rfl rfl⟩

end Cutelyst
